import Mathlib

/-!
Verification development for the LeadGenerator repository.

Shallow embedding of the content-analysis and lead-matching pipeline:
src/analyzer/llm_interface.py, src/analyzer/content_analyzer.py and
src/lead_finder/lead_generator.py, together with theorems settling the
specification claims.  Python dicts are modelled as association lists,
JSON values as the inductive type JVal, the random module and the network
as explicit oracle parameters.
-/

/-- JSON-like Python values, as produced by json.loads and passed around the
analyzer and the lead generator.  Numbers are modelled as integers; fractional
JSON literals are outside the model (none of the modelled code paths or claim
inputs contain them). -/
inductive JVal where
  | jnull
  | jbool (b : Bool)
  | jnum (n : Int)
  | jstr (s : String)
  | jarr (xs : List JVal)
  | jobj (fields : List (String × JVal))

/-- A Python dict with string keys, modelled as an association list in
insertion order. -/
abbrev PyDict := List (String × JVal)

/-- Lookup of a key in an association list modelling a Python dict. -/
def getKey {α : Type} : List (String × α) → String → Option α
  | [], _ => none
  | (k, v) :: t, key => if k = key then some v else getKey t key

/-- Dict assignment: replace the value of an existing key or append the pair. -/
def setKey {α : Type} : List (String × α) → String → α → List (String × α)
  | [], key, v => [(key, v)]
  | (k, w) :: t, key, v => if k = key then (key, v) :: t else (k, w) :: setKey t key v

/-- Python membership test key in dict. -/
def hasKey {α : Type} (l : List (String × α)) (k : String) : Bool :=
  (getKey l k).isSome

/-- Python dict.get with a default value. -/
def getD (l : PyDict) (k : String) (d : JVal) : JVal :=
  (getKey l k).getD d

/-- Python truthiness of a value. -/
def pyTruthy : JVal → Bool
  | .jnull => false
  | .jbool b => b
  | .jnum n => n != 0
  | .jstr s => s != ""
  | .jarr xs => !xs.isEmpty
  | .jobj fs => !fs.isEmpty

/-- Python str() on the value shapes reached by the modelled code paths
(strings and numbers; the container cases are never rendered by the code
under study). -/
def pyStr : JVal → String
  | .jstr s => s
  | .jnum n => toString n
  | .jbool b => if b then "True" else "False"
  | .jnull => "None"
  | .jarr _ => "[list]"
  | .jobj _ => "[dict]"

/-- String value of a dict entry, with a default for an absent key
(dict.get(key, default) followed by use as a string). -/
def getStrD (l : PyDict) (k : String) (d : String) : String :=
  match getKey l k with
  | some v => pyStr v
  | none => d

/-- Whether the pattern list is a leading segment of the text list. -/
def chStarts : List Char → List Char → Bool
  | [], _ => true
  | _ :: _, [] => false
  | p :: ps, c :: cs => p == c && chStarts ps cs

/-- Whether the pattern occurs as a contiguous run inside the text
(the Python substring test sub in s). -/
def chHas (text pat : List Char) : Bool :=
  match text with
  | [] => pat.isEmpty
  | _ :: t => chStarts pat text || chHas t pat

/-- Python substring containment sub in s. -/
def strHas (s sub : String) : Bool := chHas s.data sub.data

/-- Python str.lower on the character list of a string. -/
def strLower (s : String) : String := String.mk (s.data.map Char.toLower)

/-- The whitespace characters stripped by Python str.strip and int(). -/
def pyWsChars : List Char := [' ', '\t', '\n', '\r', '\x0b', '\x0c']

/-- Python whitespace as stripped by str.strip and int(). -/
def isPyWs (c : Char) : Bool := pyWsChars.contains c

/-- Python str.strip: drop whitespace at both ends. -/
def pyStrip (s : String) : String :=
  String.mk (((s.data.dropWhile isPyWs).reverse.dropWhile isPyWs).reverse)

/-- Helper of splitComma: accumulate the current piece in reverse. -/
def splitCommaGo (cur : List Char) : List Char → List String
  | [] => [String.mk cur.reverse]
  | c :: t =>
    if c == ',' then String.mk cur.reverse :: splitCommaGo [] t
    else splitCommaGo (c :: cur) t

/-- Python s.split on the comma character (one piece per separator, empty
pieces preserved). -/
def splitComma (s : String) : List String := splitCommaGo [] s.data

/-- Decimal digits to a number, failing on a non-digit. -/
def digitsToNat : Nat → List Char → Option Nat
  | acc, [] => some acc
  | acc, c :: cs => if c.isDigit then digitsToNat (acc * 10 + (c.toNat - 48)) cs else none

/-- Python int(s) on a decimal string: optional sign, at least one digit,
surrounding whitespace stripped; anything else raises (here: none). -/
def pyInt (s : String) : Option Int :=
  match (pyStrip s).data with
  | [] => none
  | '-' :: rest =>
    match rest with
    | [] => none
    | _ => (digitsToNat 0 rest).map (fun n => -(n : Int))
  | '+' :: rest =>
    match rest with
    | [] => none
    | _ => (digitsToNat 0 rest).map (fun n => (n : Int))
  | l => (digitsToNat 0 l).map (fun n => (n : Int))

/-- Python s.rstrip of the percent character: drop every trailing percent sign. -/
def rstripPct (s : String) : String :=
  String.mk ((s.data.reverse.dropWhile (· == '%')).reverse)

/-- The opening curly bracket character. -/
def lcurl : Char := Char.ofNat 123

/-- The closing curly bracket character. -/
def rcurl : Char := Char.ofNat 125

namespace LlmInterface

/-- Backend configuration of the LLM gateway (src/analyzer/llm_interface.py):
whether OPENAI_API_KEY is set and whether the client object was initialised. -/
structure Config where
  apiKeySet : Bool
  clientInit : Bool

/-- First successful network attempt among the given number of tries, starting
at the given attempt index; the oracle reports some text for an attempt that
returns and none for one that raises. -/
def firstSuccess (attempts : Nat → Option String) (start : Nat) : Nat → Option String
  | 0 => none
  | n + 1 =>
    match attempts start with
    | some s => some s
    | none => firstSuccess attempts (start + 1) n

/-- Model of query_llm (src/analyzer/llm_interface.py lines 39-92).  Network
call outcomes are an oracle: attempts i is the result of the i-th try.  The
function is total: every failure mode is expressed as a sentinel string, and
the fixed inter-attempt delay (time.sleep) has no value-level effect and is
not modelled. -/
def query_llm (cfg : Config) (attempts : Nat → Option String) (maxRetries : Nat) : String :=
  if !cfg.apiKeySet then "OpenAI API key is not set"
  else if !cfg.clientInit then "OpenAI client is not initialized"
  else
    match firstSuccess attempts 0 maxRetries with
    | some s => s
    | none => "Failed to get response from LLM"

end LlmInterface

/-- The whitespace characters of the JSON grammar. -/
def jsonWsChars : List Char := [' ', '\n', '\t', '\r']

/-- Skip JSON whitespace (space, tab, newline, carriage return). -/
def skipWs : List Char → List Char
  | [] => []
  | c :: cs => if jsonWsChars.contains c then skipWs cs else c :: cs

/-- The two-character JSON string escapes handled by the parser model, as a
lookup table from escape letter to denoted character. -/
def escPairs : List (Char × Char) :=
  [('"', '"'), ('\\', '\\'), ('/', '/'), ('n', '\n'), ('t', '\t'), ('r', '\r'),
   ('b', Char.ofNat 8), ('f', Char.ofNat 12)]

/-- JSON string escape characters handled by the parser model. -/
def escChar (c : Char) : Option Char :=
  (escPairs.find? (fun p => p.1 == c)).map Prod.snd

/-- Parse the characters of a JSON string after the opening quote, up to and
consuming the closing quote. -/
def parseStrChars : Nat → List Char → Option (List Char × List Char)
  | 0, _ => none
  | _, [] => none
  | f + 1, c :: cs =>
    if c == '"' then some ([], cs)
    else if c == '\\' then
      match cs with
      | [] => none
      | e :: cs2 =>
        match escChar e with
        | some r => (parseStrChars f cs2).map (fun p => (r :: p.1, p.2))
        | none => none
    else (parseStrChars f cs).map (fun p => (c :: p.1, p.2))

/-- Parse a JSON integer literal (optional minus sign, digits); a following
dot or exponent marks a fractional number, which is outside the model and
fails. -/
def parseNum (cs : List Char) : Option (Int × List Char) :=
  let (neg, cs1) :=
    match cs with
    | '-' :: t => (true, t)
    | _ => (false, cs)
  let ds := cs1.takeWhile (·.isDigit)
  let rest := cs1.dropWhile (·.isDigit)
  if ds.isEmpty then none
  else
    let n : Nat := ds.foldl (fun a c => a * 10 + (c.toNat - 48)) 0
    let v : Int := if neg then -(n : Int) else (n : Int)
    match rest with
    | c :: _ => if c == '.' || c == 'e' || c == 'E' then none else some (v, rest)
    | [] => some (v, [])

/-- Parsing mode of the recursive-descent JSON parser: a value, the body of an
object or array after its opening bracket, or the member and element loops
with their accumulators. -/
inductive PMode where
  | val
  | objBody
  | members (acc : List (String × JVal))
  | arrBody
  | elems (acc : List JVal)

/-- Fuel-bounded recursive-descent JSON parser modelling json.loads; the mode
selects which grammar production is being read.  Duplicate object keys
overwrite, as in Python. -/
def parseGo : Nat → PMode → List Char → Option (JVal × List Char)
  | 0, _, _ => none
  | f + 1, .val, cs0 =>
    let cs := skipWs cs0
    match cs with
    | [] => none
    | c :: rest =>
      if c == '"' then (parseStrChars f rest).map (fun p => (JVal.jstr (String.mk p.1), p.2))
      else if c == lcurl then parseGo f .objBody rest
      else if c == '[' then parseGo f .arrBody rest
      else if c == 't' then
        match rest with
        | 'r' :: 'u' :: 'e' :: r => some (JVal.jbool true, r)
        | _ => none
      else if c == 'f' then
        match rest with
        | 'a' :: 'l' :: 's' :: 'e' :: r => some (JVal.jbool false, r)
        | _ => none
      else if c == 'n' then
        match rest with
        | 'u' :: 'l' :: 'l' :: r => some (JVal.jnull, r)
        | _ => none
      else (parseNum cs).map (fun p => (JVal.jnum p.1, p.2))
  | f + 1, .objBody, cs0 =>
    let cs := skipWs cs0
    match cs with
    | [] => none
    | c :: rest =>
      if c == rcurl then some (JVal.jobj [], rest)
      else parseGo f (.members []) (c :: rest)
  | f + 1, .members acc, cs0 =>
    let cs := skipWs cs0
    match cs with
    | '"' :: cs1 =>
      match parseStrChars f cs1 with
      | none => none
      | some (kcs, cs2) =>
        match skipWs cs2 with
        | ':' :: cs3 =>
          match parseGo f .val cs3 with
          | none => none
          | some (v, cs4) =>
            let acc2 := setKey acc (String.mk kcs) v
            match skipWs cs4 with
            | c :: cs5 =>
              if c == ',' then parseGo f (.members acc2) cs5
              else if c == rcurl then some (JVal.jobj acc2, cs5)
              else none
            | [] => none
        | _ => none
    | _ => none
  | f + 1, .arrBody, cs0 =>
    let cs := skipWs cs0
    match cs with
    | [] => none
    | c :: rest =>
      if c == ']' then some (JVal.jarr [], rest)
      else parseGo f (.elems []) (c :: rest)
  | f + 1, .elems acc, cs0 =>
    match parseGo f .val cs0 with
    | none => none
    | some (v, cs1) =>
      match skipWs cs1 with
      | c :: cs2 =>
        if c == ',' then parseGo f (.elems (acc ++ [v])) cs2
        else if c == ']' then some (JVal.jarr (acc ++ [v]), cs2)
        else none
      | [] => none

/-- Model of json.loads: parse one value and require only whitespace after it;
any parse failure is the raised JSONDecodeError, expressed as none. -/
def jsonLoads (s : String) : Option JVal :=
  match parseGo (4 * s.length + 8) .val s.data with
  | some (v, rest) => if (skipWs rest).isEmpty then some v else none
  | none => none

/-- Index of the first occurrence of a character (Python str.find, with none
for the -1 result). -/
def firstIdx : List Char → Char → Option Nat
  | [], _ => none
  | x :: t, c => if x == c then some 0 else (firstIdx t c).map (· + 1)

/-- Index of the last occurrence of a character (Python str.rfind, with none
for the -1 result). -/
def lastIdx (cs : List Char) (c : Char) : Option Nat :=
  match firstIdx cs.reverse c with
  | some i => some (cs.length - 1 - i)
  | none => none

/-- The array attempt of extract_json_from_response (lines 127-132): substring
between the first opening and last closing square bracket, parsed; a parse
failure there is caught and yields none. -/
def extractArrayCase (cs : List Char) : Option JVal :=
  match firstIdx cs '[', lastIdx cs ']' with
  | some i, some j => if i ≤ j then jsonLoads (String.mk ((cs.drop i).take (j + 1 - i))) else none
  | _, _ => none

/-- Model of extract_json_from_response (src/analyzer/llm_interface.py lines
102-138): parse the whole text; on failure take the substring between the
first opening and last closing curly bracket and parse it (a failure of that
parse is caught and ends the extraction); if the bracket search fails, try
the same with square brackets; total failure returns none.  Total: no path
raises. -/
def extract_json_from_response (t : String) : Option JVal :=
  match jsonLoads t with
  | some v => some v
  | none =>
    let cs := t.data
    match firstIdx cs lcurl, lastIdx cs rcurl with
    | some i, some j =>
      if i ≤ j then jsonLoads (String.mk ((cs.drop i).take (j + 1 - i)))
      else extractArrayCase cs
    | _, _ => extractArrayCase cs

namespace Analyzer

/-- State of a ContentAnalyzer instance (src/analyzer/content_analyzer.py):
the constructor arguments as stored, plus the company_analysis dict used by
infer_offerings_from_industry. -/
structure ContentAnalyzer where
  use_local_llm : Bool
  model_name : String
  use_cache : Bool
  cache_expiry : Int
  company_analysis : PyDict

/-- Model of ContentAnalyzer.__init__ (lines 15-24): the use_local_llm
argument is stored and then unconditionally overwritten with False on line 24,
and company_analysis starts empty. -/
def init (useLocalLlm : Bool) (modelName : String) (useCache : Bool)
    (cacheExpiry : Int) : ContentAnalyzer :=
  let _ := useLocalLlm
  { use_local_llm := false
    model_name := modelName
    use_cache := useCache
    cache_expiry := cacheExpiry
    company_analysis := [] }

/-- The analyzer built by the module-level entry point analyze_company
(lines 475-482): a fresh instance from the environment-derived flag and
model name, with the default cache expiry of 86400 seconds. -/
def module_analyzer (envUseLocalLlm : Bool) (envModel : String) (useCache : Bool) :
    ContentAnalyzer :=
  init envUseLocalLlm envModel useCache 86400

/-- The required_fields dict of process_llm_response (lines 163-170), in
insertion order. -/
def required_fields : List (String × JVal) :=
  [("company_type", .jstr "Unknown"), ("industry", .jstr "Unknown"),
   ("company_size", .jstr "Unknown"), ("target_market", .jstr "Unknown"),
   ("offerings", .jarr []), ("pain_points", .jarr [])]

/-- The fields coerced from a bare string to a one-element list
(line 178). -/
def listCoerced (k : String) : Bool :=
  k == "offerings" || k == "pain_points" || k == "target_market"

/-- One iteration of the loop in process_llm_response (lines 173-179):
default a missing or falsy field, then wrap a bare string into a one-element
list for the three list fields. -/
def ensureField (r : PyDict) (k : String) (d : JVal) : PyDict :=
  let r1 : PyDict :=
    match getKey r k with
    | some v => if pyTruthy v then r else setKey r k d
    | none => setKey r k d
  if listCoerced k then
    match getKey r1 k with
    | some (JVal.jstr s) => setKey r1 k (.jarr [.jstr s])
    | _ => r1
  else r1

/-- Model of process_llm_response (lines 160-181). -/
def process_llm_response (response : PyDict) : PyDict :=
  required_fields.foldl (fun r kd => ensureField r kd.1 kd.2) response

/-- Leaf heuristics of the rule-based fallback.  The functions
guess_company_type, guess_industry, guess_company_size, guess_target_market
and guess_pain_points (lines 197-437) are pure regular-expression and
keyword-count functions of the content; they are modelled as oracle inputs
carrying the return types of the source functions (strings, or lists of
strings).  patternsText is the return value of
extract_offerings_with_patterns(content) (lines 301-327, regex based), and
localLlmResp the return value of query_llm inside the local-LLM branch of
extract_offerings (line 268). -/
structure FallbackLeaves where
  companyType : String
  industry : String
  companySize : String
  targetMarket : List String
  painPoints : List String
  patternsText : String
  localLlmResp : JVal

/-- The industry to offerings lookup table of infer_offerings_from_industry
(lines 334-342). -/
def industry_offerings_table : List (String × List String) :=
  [("Technology", ["Software Development", "IT Consulting", "Cloud Services", "Data Analytics", "Cybersecurity"]),
   ("Healthcare", ["Medical Services", "Healthcare IT", "Patient Management", "Medical Equipment", "Telehealth"]),
   ("Finance", ["Financial Services", "Investment Management", "Banking Solutions", "Insurance", "Payment Processing"]),
   ("Education", ["Educational Content", "Learning Management", "Student Services", "Educational Technology", "Training Programs"]),
   ("Manufacturing", ["Production Services", "Supply Chain Management", "Quality Control", "Equipment Manufacturing", "Industrial Design"]),
   ("Retail", ["E-commerce Solutions", "Inventory Management", "Customer Experience", "Point of Sale Systems", "Retail Analytics"]),
   ("Consulting", ["Business Strategy", "Management Consulting", "Process Improvement", "Change Management", "Industry Expertise"])]

/-- The generic offerings triple keyed by company type (lines 348-354). -/
def generic_offerings (companyType : JVal) : List String :=
  match companyType with
  | .jstr s =>
    if s == "B2B" then ["Business Services", "Professional Solutions", "Enterprise Software"]
    else if s == "B2C" then ["Consumer Products", "Customer Services", "Retail Solutions"]
    else ["Professional Services", "Industry Solutions", "Specialized Expertise"]
  | _ => ["Professional Services", "Industry Solutions", "Specialized Expertise"]

/-- Model of infer_offerings_from_industry (lines 329-354): reads industry
and company_type from the instance dict company_analysis with defaults
Unknown and B2B; a non-string industry is never a key of the table. -/
def infer_offerings_from_industry (companyAnalysis : PyDict) : List String :=
  let industry := getD companyAnalysis "industry" (.jstr "Unknown")
  let companyType := getD companyAnalysis "company_type" (.jstr "B2B")
  match industry with
  | .jstr s =>
    match getKey industry_offerings_table s with
    | some offs => offs.take 3
    | none => generic_offerings companyType
  | _ => generic_offerings companyType

/-- The comma-split and strip of the patterns text (line 284): items split on
commas, stripped, empty items dropped. -/
def splitOfferings (t : String) : List String :=
  ((splitComma t).map pyStrip).filter (fun x => x != "")

/-- The generic-term filter of extract_offerings (lines 287-292): drop items
shorter than 4 characters or equal (case-insensitively) to services,
products or solutions. -/
def filterOfferings (l : List String) : List String :=
  l.filter (fun o =>
    !(o.length < 4 || strLower o == "services" || strLower o == "products" || strLower o == "solutions"))

/-- Model of extract_offerings (lines 250-299).  Empty content returns the
sentinel list.  The local-LLM branch (lines 267-277) queries the model and
returns early only when the response is a dict with an offerings list or
comma string; otherwise both branches take the regex patterns text
(parameterised in the leaves oracle), split, strip, filter, and fall back to
infer_offerings_from_industry when nothing usable remains. -/
def extract_offerings (st : ContentAnalyzer) (content : String)
    (lv : FallbackLeaves) : List JVal :=
  if content == "" then [.jstr "Unknown - LLM analysis required"]
  else
    let fromLocal : Option (List JVal) :=
      if st.use_local_llm then
        match lv.localLlmResp with
        | .jobj fs =>
          match getKey fs "offerings" with
          | some (.jarr xs) => some xs
          | some (.jstr s) => some ((splitOfferings s).map .jstr)
          | _ => none
        | _ => none
      else none
    match fromLocal with
    | some xs => xs
    | none =>
      let offeringsText := lv.patternsText
      if offeringsText != "" && strLower offeringsText != "unknown" then
        let filtered := filterOfferings (splitOfferings offeringsText)
        if filtered.isEmpty then (infer_offerings_from_industry st.company_analysis).map .jstr
        else filtered.map .jstr
      else (infer_offerings_from_industry st.company_analysis).map .jstr

/-- Model of analyze_without_llm (lines 183-195): the rule-based fallback
dict, keys in the insertion order of the source literal. -/
def analyze_without_llm (st : ContentAnalyzer) (content : String)
    (lv : FallbackLeaves) : PyDict :=
  [("company_type", .jstr lv.companyType),
   ("industry", .jstr lv.industry),
   ("company_size", .jstr lv.companySize),
   ("target_market", .jarr (lv.targetMarket.map .jstr)),
   ("offerings", .jarr (extract_offerings st content lv)),
   ("pain_points", .jarr (lv.painPoints.map .jstr))]

/-- One fresh (non-cached) run of analyze_company (lines 36-53).  llmParsed
is the outcome of the LLM attempt in analyze_with_openai: some obj when
query_llm returned text from which extract_json_from_response produced a
JSON object, none on any failure (sentinel text, unparsable response, or a
raised exception), which routes to the rule-based fallback.  The ISO
timestamp added on line 46 is modelled as epoch seconds. -/
def analyze_fresh (st : ContentAnalyzer) (content : String)
    (llmParsed : Option PyDict) (lv : FallbackLeaves) (now : Int) : PyDict :=
  let base :=
    match llmParsed with
    | some obj => process_llm_response obj
    | none => analyze_without_llm st content lv
  setKey base "timestamp" (.jnum now)

/-- Model of check_cache (lines 439-461) over a key-value store: a stored
profile whose numeric timestamp is within the expiry window; a missing key,
or a missing or non-numeric timestamp (which in the source parses the
epoch-2000 default or raises, both treated as a miss for any realistic
expiry) yields none. -/
def check_cache (st : ContentAnalyzer) (store : List (String × PyDict))
    (now : Int) (key : String) : Option PyDict :=
  match getKey store key with
  | none => none
  | some d =>
    match getKey d "timestamp" with
    | some (.jnum t) => if now - t > st.cache_expiry then none else some d
    | _ => none

/-- Model of ContentAnalyzer.analyze_company (lines 26-53).  The result is
the profile, the updated cache store, and the number of query_llm calls made
(one per fresh analysis, zero on a cache hit).  The content argument is the
output of prepare_content, a pure function of the website record. -/
def analyze_company (st : ContentAnalyzer) (store : List (String × PyDict))
    (now : Int) (domain : String) (content : String)
    (llmParsed : Option PyDict) (lv : FallbackLeaves) :
    PyDict × List (String × PyDict) × Nat :=
  let key := "analysis_" ++ domain
  let fresh :=
    let p := analyze_fresh st content llmParsed lv now
    let store2 := if st.use_cache then setKey store key p else store
    (p, store2, 1)
  if st.use_cache then
    match check_cache st store now key with
    | some d => if !d.isEmpty then (d, store, 0) else fresh
    | none => fresh
  else fresh

end Analyzer

namespace LeadFinder

/-- A company record built by find_companies_for_category (lines 496-501). -/
structure CompanyRec where
  name : String
  domain : String
  industry : String
  size : String

/-- Oracle for the random module.  Calls are indexed by a counter threaded
through the generator in call order: randint k lo hi is the value of the
k-th draw when it is randint(lo, hi); idx k n is the index picked by
random.choice on a list of length n (consumed modulo n); perm k is the
permutation applied by random.shuffle at draw k. -/
structure PyRandom where
  randint : Nat → Int → Int → Int
  idx : Nat → Nat → Nat
  perm : Nat → List CompanyRec → List CompanyRec

/-- random.choice on a list of strings via the index oracle (the empty-list
case raises in Python and is never reached: every choice list in the source
is a non-empty literal). -/
def choiceStr (g : PyRandom) (k : Nat) (l : List String) : String :=
  l.getD (g.idx k l.length % l.length) ""

/-- The email_patterns list of the constructor (lines 22-29). -/
def email_patterns : List String :=
  ["{first}.{last}@{domain}",
   "{first_initial}{last}@{domain}",
   "{first}@{domain}",
   "{last}@{domain}",
   "{first_initial}.{last}@{domain}",
   "{first}{last_initial}@{domain}"]

/-- The industry_domains table of the constructor (lines 32-40). -/
def industry_domains : List (String × List String) :=
  [("Technology", ["techcorp.com", "innovatetech.io", "nextsoftware.com", "cloudservices.net", "datatech.ai"]),
   ("Healthcare", ["healthsolutions.org", "medicalgroup.com", "careproviders.net", "healthtech.io", "medicalservices.com"]),
   ("Finance", ["financialgroup.com", "investmentfirm.com", "bankingsolutions.net", "wealthmanagement.com", "fintech.io"]),
   ("Education", ["learningsolutions.org", "educationgroup.com", "academicservices.net", "trainingpro.com", "edtech.io"]),
   ("Manufacturing", ["industrialsolutions.com", "manufacturinggroup.net", "productionservices.com", "factorytech.io", "industrialequipment.com"]),
   ("Retail", ["retailgroup.com", "shoppingsolutions.net", "consumerproducts.com", "retailtech.io", "marketingsolutions.com"]),
   ("Consulting", ["consultinggroup.com", "advisoryservices.net", "businessconsultants.com", "strategyadvisors.io", "consultingfirm.com"])]

/-- The industry_companies table of the constructor (lines 43-51). -/
def industry_companies : List (String × List String) :=
  [("Technology", ["TechCorp", "InnovateTech", "NextSoftware", "CloudServices", "DataTech"]),
   ("Healthcare", ["HealthSolutions", "MedicalGroup", "CareProviders", "HealthTech", "MedicalServices"]),
   ("Finance", ["FinancialGroup", "InvestmentFirm", "BankingSolutions", "WealthManagement", "FinTech"]),
   ("Education", ["LearningSolutions", "EducationGroup", "AcademicServices", "TrainingPro", "EdTech"]),
   ("Manufacturing", ["IndustrialSolutions", "ManufacturingGroup", "ProductionServices", "FactoryTech", "IndustrialEquipment"]),
   ("Retail", ["RetailGroup", "ShoppingSolutions", "ConsumerProducts", "RetailTech", "MarketingSolutions"]),
   ("Consulting", ["ConsultingGroup", "AdvisoryServices", "BusinessConsultants", "StrategyAdvisors", "ConsultingFirm"])]

/-- The local industry_companies table of generate_fallback_matches
(lines 288-295). -/
def fallback_industry_companies : List (String × List String) :=
  [("Technology", ["Microsoft", "Salesforce", "Adobe", "Oracle", "IBM", "ServiceNow"]),
   ("Healthcare", ["Mayo Clinic", "Cleveland Clinic", "Kaiser Permanente", "UnitedHealth Group", "CVS Health"]),
   ("Finance", ["JPMorgan Chase", "Bank of America", "Wells Fargo", "Goldman Sachs", "Morgan Stanley"]),
   ("Manufacturing", ["General Electric", "Siemens", "Boeing", "Caterpillar", "3M Company"]),
   ("Retail", ["Walmart", "Target", "Amazon", "Costco", "Home Depot"]),
   ("Consulting", ["Deloitte", "McKinsey", "Boston Consulting Group", "Accenture", "KPMG"])]

/-- The category_to_industries table of find_companies_for_category
(lines 459-472). -/
def category_to_industries : List (String × List String) :=
  [("tech_solution", ["Technology", "Finance", "Healthcare", "Retail", "Education"]),
   ("digital_transformation", ["Manufacturing", "Finance", "Healthcare", "Retail"]),
   ("professional_service", ["Consulting", "Finance", "Technology", "Healthcare"]),
   ("business_advisory", ["Finance", "Technology", "Manufacturing", "Retail"]),
   ("product_solution", ["Manufacturing", "Retail", "Healthcare", "Technology"]),
   ("equipment_provider", ["Manufacturing", "Healthcare", "Education"]),
   ("marketing_solution", ["Retail", "Technology", "Finance", "Healthcare"]),
   ("brand_development", ["Retail", "Technology", "Finance"]),
   ("financial_service", ["Finance", "Technology", "Retail", "Healthcare"]),
   ("payment_solution", ["Retail", "Finance", "Technology"]),
   ("business_solution", ["Technology", "Finance", "Consulting", "Manufacturing"]),
   ("industry_service", ["Technology", "Healthcare", "Finance", "Manufacturing", "Retail"])]

/-- The industry_relevance table of calculate_match_score (lines 513-526). -/
def industry_relevance : List (String × List (String × Int)) :=
  [("tech_solution", [("Technology", 20), ("Finance", 15), ("Healthcare", 10), ("Retail", 10), ("Education", 5)]),
   ("digital_transformation", [("Manufacturing", 20), ("Finance", 15), ("Healthcare", 15), ("Retail", 10)]),
   ("professional_service", [("Consulting", 20), ("Finance", 15), ("Technology", 10), ("Healthcare", 5)]),
   ("business_advisory", [("Finance", 20), ("Technology", 15), ("Manufacturing", 10), ("Retail", 5)]),
   ("product_solution", [("Manufacturing", 20), ("Retail", 15), ("Healthcare", 10), ("Technology", 5)]),
   ("equipment_provider", [("Manufacturing", 20), ("Healthcare", 15), ("Education", 10)]),
   ("marketing_solution", [("Retail", 20), ("Technology", 15), ("Finance", 10), ("Healthcare", 5)]),
   ("brand_development", [("Retail", 20), ("Technology", 15), ("Finance", 10)]),
   ("financial_service", [("Finance", 20), ("Technology", 15), ("Retail", 10), ("Healthcare", 5)]),
   ("payment_solution", [("Retail", 20), ("Finance", 15), ("Technology", 10)]),
   ("business_solution", [("Technology", 15), ("Finance", 15), ("Consulting", 15), ("Manufacturing", 10)]),
   ("industry_service", [("Technology", 15), ("Healthcare", 15), ("Finance", 15), ("Manufacturing", 10), ("Retail", 10)])]

/-- The industry_roles table of get_target_roles_for_match (lines 669-677). -/
def industry_roles : List (String × List String) :=
  [("Technology", ["CTO", "CIO", "VP of Engineering", "IT Director", "Head of Digital"]),
   ("Healthcare", ["Medical Director", "Chief of Operations", "Head of Patient Services", "IT Director", "Clinical Director"]),
   ("Finance", ["CFO", "Head of Risk", "Investment Director", "VP of Operations", "Technology Director"]),
   ("Education", ["Dean", "Principal", "Director of IT", "Head of Operations", "Chief Academic Officer"]),
   ("Manufacturing", ["COO", "Production Director", "VP of Operations", "Supply Chain Manager", "Plant Manager"]),
   ("Retail", ["CMO", "Head of Merchandising", "Operations Director", "Digital Director", "Customer Experience Manager"]),
   ("Consulting", ["Managing Partner", "Practice Lead", "Director of Operations", "Business Development Manager", "Senior Consultant"])]

/-- The category_roles table of get_target_roles_for_match (lines 680-693). -/
def category_roles : List (String × List String) :=
  [("tech_solution", ["CTO", "CIO", "IT Director", "Digital Transformation Lead"]),
   ("digital_transformation", ["CIO", "Digital Director", "Head of Innovation", "Technology Transformation Lead"]),
   ("professional_service", ["COO", "VP of Operations", "Director of Professional Services"]),
   ("business_advisory", ["CEO", "COO", "Strategy Director", "Business Development Lead"]),
   ("product_solution", ["Product Director", "Operations Manager", "Supply Chain Director"]),
   ("equipment_provider", ["Operations Director", "Facilities Manager", "Production Manager"]),
   ("marketing_solution", ["CMO", "Marketing Director", "Brand Manager", "Digital Marketing Lead"]),
   ("brand_development", ["CMO", "Brand Director", "Marketing Manager"]),
   ("financial_service", ["CFO", "Finance Director", "Controller", "Treasurer"]),
   ("payment_solution", ["CFO", "Finance Director", "Payments Manager"]),
   ("business_solution", ["COO", "Operations Director", "Business Process Manager"]),
   ("industry_service", ["COO", "Operations Director", "Service Director"])]

/-- The role_suggestions table of generate_outreach_suggestions
(lines 782-808). -/
def role_suggestions : List (String × List String) :=
  [("CTO", ["Focus on technical benefits and integration capabilities",
            "Highlight how your solution addresses technical challenges",
            "Discuss scalability and future-proofing aspects"]),
   ("CIO", ["Emphasize ROI and business value of your technical solution",
            "Address security and compliance considerations",
            "Discuss how your solution fits into their overall IT strategy"]),
   ("COO", ["Focus on operational efficiency improvements",
            "Highlight cost-saving aspects of your solution",
            "Discuss implementation timeline and minimal disruption"]),
   ("CMO", ["Emphasize customer experience benefits",
            "Highlight marketing and brand enhancement capabilities",
            "Discuss analytics and measurement aspects"]),
   ("CFO", ["Focus on financial benefits and ROI",
            "Highlight cost reduction and revenue growth potential",
            "Discuss pricing model and payment flexibility"])]

/-- The first-name pool of generate_name_for_role (lines 736-741). -/
def first_names : List String :=
  ["James", "John", "Robert", "Michael", "William", "David", "Richard", "Joseph", "Thomas", "Charles",
   "Mary", "Patricia", "Jennifer", "Linda", "Elizabeth", "Barbara", "Susan", "Jessica", "Sarah", "Karen",
   "Christopher", "Daniel", "Matthew", "Anthony", "Mark", "Donald", "Steven", "Paul", "Andrew", "Joshua",
   "Michelle", "Amanda", "Kimberly", "Melissa", "Stephanie", "Rebecca", "Laura", "Emily", "Megan", "Hannah"]

/-- The last-name pool of generate_name_for_role (lines 744-749). -/
def last_names : List String :=
  ["Smith", "Johnson", "Williams", "Jones", "Brown", "Davis", "Miller", "Wilson", "Moore", "Taylor",
   "Anderson", "Thomas", "Jackson", "White", "Harris", "Martin", "Thompson", "Garcia", "Martinez", "Robinson",
   "Clark", "Rodriguez", "Lewis", "Lee", "Walker", "Hall", "Allen", "Young", "Hernandez", "King",
   "Wright", "Lopez", "Hill", "Scott", "Green", "Adams", "Baker", "Gonzalez", "Nelson", "Carter"]

/-- Model of categorize_offering (lines 425-453): substring keyword tests on
the lower-cased offering, categories accumulated in source order, with the
generic pair when nothing matches. -/
def categorize_offering (offering : String) : List String :=
  let c1 := if ["software", "app", "platform", "tech", "digital", "ai", "data", "cloud", "automation"].any
                 (fun t => strHas offering t)
            then ["tech_solution", "digital_transformation"] else []
  let c2 := if ["service", "consulting", "support", "management", "strategy", "advisory"].any
                 (fun t => strHas offering t)
            then ["professional_service", "business_advisory"] else []
  let c3 := if ["product", "equipment", "device", "hardware", "tool", "system"].any
                 (fun t => strHas offering t)
            then ["product_solution", "equipment_provider"] else []
  let c4 := if ["marketing", "brand", "advertising", "promotion", "content", "media"].any
                 (fun t => strHas offering t)
            then ["marketing_solution", "brand_development"] else []
  let c5 := if ["finance", "payment", "banking", "investment", "accounting", "tax"].any
                 (fun t => strHas offering t)
            then ["financial_service", "payment_solution"] else []
  let cats := c1 ++ c2 ++ c3 ++ c4 ++ c5
  if cats.isEmpty then ["business_solution", "industry_service"] else cats

/-- The numeric value of a match score (a number, or a bool which is an int
instance in Python; other shapes would raise on comparison and are outside
the modelled runs). -/
def jnumVal : JVal → Int
  | .jnum n => n
  | .jbool b => if b then 1 else 0
  | _ => 0

/-- Model of calculate_match_score (lines 508-550): base 70, the
category-by-industry relevance bonus keyed by the first category of the
offering, the size bonus, a cap at 95, one randint(-5, 5) jitter draw, and
a final clamp to the range 0 to 100.  The target_market argument is unused
in the source as well. -/
def calculate_match_score (g : PyRandom) (k : Nat) (m : CompanyRec)
    (offering : String) (_targetMarket : JVal) (companySize : String) : Int × Nat :=
  let score : Int := 70
  let cats := categorize_offering (strLower offering)
  let cat := cats.headD "business_solution"
  let score := score +
    (match getKey industry_relevance cat with
     | some tbl => ((getKey tbl m.industry).getD 0)
     | none => 0)
  let score := score +
    (if m.size == companySize then 10
     else if (m.size == "Large" && companySize == "Medium")
          || (m.size == "Medium" && companySize == "Small") then 5
     else 0)
  let score := min score 95
  let j := g.randint k (-5) 5
  (max 0 (min 100 (score + j)), k + 1)

/-- The industry bonus of the specification formula for claim C5: the fixed
category-by-industry table value, 0 when absent. -/
def spec_industry_bonus (cat ind : String) : Int :=
  match getKey industry_relevance cat with
  | some tbl => (getKey tbl ind).getD 0
  | none => 0

/-- The size bonus of the specification formula for claim C5: 10 for an
exact size match, 5 when the candidate is Large and the source Medium or the
candidate is Medium and the source Small, 0 otherwise. -/
def spec_size_bonus (matchSize companySize : String) : Int :=
  if matchSize == companySize then 10
  else if (matchSize == "Large" && companySize == "Medium")
       || (matchSize == "Medium" && companySize == "Small") then 5
  else 0

/-- The deterministic-path scoring formula as worded by the specification
(claim C5): clamp to the range 0 to 100 of min(95, 70 + industry bonus +
size bonus) plus the jitter. -/
def spec_match_score (industryBonus sizeBonus jitter : Int) : Int :=
  max 0 (min 100 (min 95 (70 + industryBonus + sizeBonus) + jitter))

end LeadFinder

namespace LeadFinder

/-- The potential-value string keyed by the source company size, used by the
LLM validation (lines 239-245) and the fallback generator (lines 317-322). -/
def pv_for_size (companySize : String) : String :=
  if companySize == "Large" then "$100K-$500K"
  else if companySize == "Medium" then "$50K-$100K"
  else "$10K-$50K"

/-- The size synthesized from a potential-value string by substring tests
(lines 260-268 and 331-337). -/
def size_from_pv (pv : String) : String :=
  if strHas pv "$100K" || strHas pv "$500K" then "Large"
  else if strHas pv "$50K" then "Medium"
  else "Small"

/-- A domain synthesized from a company name (lines 252-257 and 324-329):
lower-case, keep alphanumerics and spaces, drop the spaces, append .com. -/
def domain_from_name (name : String) : String :=
  String.mk (((strLower name).data.filter (fun c => c.isAlphanum || c == ' ')).filter
    (fun c => c != ' ')) ++ ".com"

/-- The match reason of one fallback match (lines 307-312): rotate through
the offerings list when it is a non-empty Python list, otherwise the generic
sector sentence. -/
def fallback_reason (offerings : JVal) (industry : String) (i : Nat) : String :=
  match offerings with
  | .jarr xs =>
    if xs.isEmpty then "Would benefit from products/services in the " ++ industry ++ " sector."
    else "Would benefit from " ++ pyStr (xs.getD (i % xs.length) .jnull) ++
         " to improve their operations and efficiency."
  | _ => "Would benefit from products/services in the " ++ industry ++ " sector."

/-- One iteration of the loop of generate_fallback_matches (lines 301-348),
with the dict keys in the insertion order of the source literal; consumes one
randint(70, 90) draw. -/
def fallback_match (g : PyRandom) (k : Nat) (industry : String) (offerings : JVal)
    (companySize : String) (companies : List String) (i : Nat) : PyDict × Nat :=
  let name := if i < companies.length then companies.getD i ""
              else "Company " ++ String.mk [Char.ofNat (65 + i)]
  let reason := fallback_reason offerings industry i
  let score := g.randint k 70 90
  let pv := pv_for_size companySize
  ([("company_name", .jstr name),
    ("industry", .jstr industry),
    ("match_reason", .jstr reason),
    ("match_score", .jnum score),
    ("potential_value", .jstr pv),
    ("offering_category", .jstr "fallback_generated"),
    ("domain", .jstr (domain_from_name name)),
    ("size", .jstr (size_from_pv pv))], k + 1)

/-- The index loop of generate_fallback_matches, threading the draw
counter. -/
def fallback_go (g : PyRandom) (industry : String) (offerings : JVal)
    (companySize : String) (companies : List String) (k : Nat) :
    List Nat → List PyDict × Nat
  | [] => ([], k)
  | i :: is =>
    let (m, k1) := fallback_match g k industry offerings companySize companies i
    let (ms, k2) := fallback_go g industry offerings companySize companies k1 is
    (m :: ms, k2)

/-- Model of generate_fallback_matches (lines 282-350): five matches drawn
from the fixed per-industry company table (or the generic Company A to E
list). -/
def generate_fallback_matches (g : PyRandom) (k : Nat) (industry : String)
    (offerings : JVal) (companySize : String) : List PyDict × Nat :=
  let companies := (getKey fallback_industry_companies industry).getD
    ["Company A", "Company B", "Company C", "Company D", "Company E"]
  fallback_go g industry offerings companySize companies k (List.range 5)

/-- Whether the stored match_score is unusable for the validation of
generate_potential_matches_with_llm: absent, or neither a number (a bool is
an int instance in Python) nor a string that int() can parse after stripping
percent signs.  In that case a fresh randint(70, 90) score is synthesized. -/
def score_unusable (m : PyDict) : Bool :=
  match getKey m "match_score" with
  | some (.jnum _) => false
  | some (.jbool _) => false
  | some (JVal.jstr s) => (pyInt (rstripPct s)).isNone
  | some _ => true
  | none => true

/-- The match-score step of the validation loop (lines 228-236): keep a
numeric score, coerce a percent-suffixed string with int(), otherwise draw
randint(70, 90). -/
def ensure_match_score (g : PyRandom) (k : Nat) (m : PyDict) : PyDict × Nat :=
  match getKey m "match_score" with
  | some (.jnum _) => (m, k)
  | some (.jbool _) => (m, k)
  | some (JVal.jstr s) =>
    match pyInt (rstripPct s) with
    | some n => (setKey m "match_score" (.jnum n), k)
    | none => (setKey m "match_score" (.jnum (g.randint k 70 90)), k + 1)
  | _ => (setKey m "match_score" (.jnum (g.randint k 70 90)), k + 1)

/-- The potential-value step of the validation loop (lines 239-245). -/
def ensure_potential_value (m : PyDict) (companySize : String) : PyDict :=
  match getKey m "potential_value" with
  | some v => if pyTruthy v then m else setKey m "potential_value" (.jstr (pv_for_size companySize))
  | none => setKey m "potential_value" (.jstr (pv_for_size companySize))

/-- The domain step of the validation loop (lines 251-257). -/
def ensure_domain (m : PyDict) : PyDict :=
  if hasKey m "domain" then m
  else setKey m "domain" (.jstr (domain_from_name (pyStr (getD m "company_name" (.jstr "")))))

/-- The size step of the validation loop (lines 259-268). -/
def ensure_size (m : PyDict) : PyDict :=
  if hasKey m "size" then m
  else setKey m "size" (.jstr (size_from_pv (pyStr (getD m "potential_value" (.jstr "")))))

/-- Validation of one candidate of the LLM response (lines 223-270): require
company_name, industry and match_reason, then run the four fix-up steps in
source order.  A non-dict entry fails the membership test (or raises,
routing the whole call to the fallback) and is modelled as skipped. -/
def validate_match (g : PyRandom) (k : Nat) (companySize : String) (m : JVal) :
    Option PyDict × Nat :=
  match m with
  | .jobj fs =>
    if hasKey fs "company_name" && hasKey fs "industry" && hasKey fs "match_reason" then
      let (m1, k1) := ensure_match_score g k fs
      let m2 := ensure_potential_value m1 companySize
      let m3 := setKey m2 "offering_category" (.jstr "llm_generated")
      let m4 := ensure_domain m3
      let m5 := ensure_size m4
      (some m5, k1)
    else (none, k)
  | _ => (none, k)

/-- The validation loop over all candidates, threading the draw counter. -/
def validate_go (g : PyRandom) (companySize : String) (k : Nat) :
    List JVal → List PyDict × Nat
  | [] => ([], k)
  | m :: ms =>
    let (r, k1) := validate_match g k companySize m
    let (rs, k2) := validate_go g companySize k1 ms
    (match r with
     | some d => d :: rs
     | none => rs, k2)

/-- Model of generate_potential_matches_with_llm (lines 156-280).  The
composition of the prompt, query_llm, the fenced-block regex and json.loads
is the llmParsed oracle: none when parsing raised (or the outer exception
fired), routing to generate_fallback_matches; some data when json.loads
succeeded.  A parsed value without a potential_matches list yields the empty
list (sending the caller to the deterministic path).  The offerings and
target-market coercions of lines 159-169 only shape the prompt text and have
no value-level effect. -/
def generate_potential_matches_with_llm (g : PyRandom) (k : Nat)
    (llmParsed : Option JVal) (industry : String) (offerings : JVal)
    (_targetMarket : JVal) (companySize : String) : List PyDict × Nat :=
  match llmParsed with
  | none => generate_fallback_matches g k industry offerings companySize
  | some data =>
    match data with
    | .jobj fs =>
      match getKey fs "potential_matches" with
      | some (.jarr ms) => validate_go g companySize k ms
      | _ => ([], k)
    | _ => ([], k)

/-- Model of get_complementary_size (lines 639-648): one random.choice draw
from the size list keyed by the source size. -/
def get_complementary_size (g : PyRandom) (k : Nat) (companySize : String) :
    String × Nat :=
  if companySize == "Small" then (choiceStr g k ["Small", "Medium", "Medium"], k + 1)
  else if companySize == "Medium" then (choiceStr g k ["Medium", "Large", "Small"], k + 1)
  else if companySize == "Large" then (choiceStr g k ["Large", "Medium", "Medium"], k + 1)
  else (choiceStr g k ["Small", "Medium", "Large"], k + 1)

/-- Model of get_random_company_size (lines 650-652). -/
def get_random_company_size (g : PyRandom) (k : Nat) : String × Nat :=
  (choiceStr g k ["Small", "Medium", "Medium", "Large"], k + 1)

/-- The per-company loop of find_companies_for_category (lines 486-501) for
one target industry: one complementary-size draw per company, names and
domains paired positionally from the two constructor tables. -/
def companies_go (g : PyRandom) (companySize ind : String) (k : Nat) :
    List (String × String) → List CompanyRec × Nat
  | [] => ([], k)
  | (n, d) :: t =>
    let (sz, k1) := get_complementary_size g k companySize
    let (rest, k2) := companies_go g companySize ind k1 t
    (⟨n, d, ind, sz⟩ :: rest, k2)

/-- The per-industry loop of find_companies_for_category: industries present
in the constructor tables contribute their companies. -/
def industries_go (g : PyRandom) (companySize : String) (k : Nat) :
    List String → List CompanyRec × Nat
  | [] => ([], k)
  | ind :: t =>
    match getKey industry_companies ind, getKey industry_domains ind with
    | some ns, some ds =>
      let (cs1, k1) := companies_go g companySize ind k (ns.zip ds)
      let (rest, k2) := industries_go g companySize k1 t
      (cs1 ++ rest, k2)
    | _, _ => industries_go g companySize k t

/-- Model of find_companies_for_category (lines 454-506): target industries
from the category table (with the generic triple as default), the source
industry removed, companies gathered per industry, one shuffle, and the
first five kept. -/
def find_companies_for_category (g : PyRandom) (k : Nat)
    (category srcIndustry companySize : String) : List CompanyRec × Nat :=
  let targets := (getKey category_to_industries category).getD ["Technology", "Finance", "Retail"]
  let targets := targets.erase srcIndustry
  let targets := if targets.isEmpty then ["Technology", "Finance", "Retail"] else targets
  let (companies, k1) := industries_go g companySize k targets
  ((g.perm k1 companies).take 5, k1 + 1)

/-- The industry_reasons entries of generate_specific_match_reason
(lines 557-593), instantiated with the match fields and the offering. -/
def industry_reason_list (ind name sizeLower offering : String) : List String :=
  if ind == "Technology" then
    ["As a " ++ sizeLower ++ " technology company, " ++ name ++ " could leverage your " ++ offering ++ " to enhance their product development",
     name ++ " is likely seeking solutions like your " ++ offering ++ " to stay competitive in the fast-moving tech industry",
     "Technology firms like " ++ name ++ " often need specialized " ++ offering ++ " to improve their operational efficiency"]
  else if ind == "Finance" then
    ["Financial institutions like " ++ name ++ " require robust " ++ offering ++ " to ensure regulatory compliance and security",
     name ++ " could benefit from your " ++ offering ++ " to streamline their customer service operations",
     "In the finance sector, " ++ name ++ " faces challenges that your " ++ offering ++ " is specifically designed to address"]
  else if ind == "Healthcare" then
    ["Healthcare providers like " ++ name ++ " need reliable " ++ offering ++ " to improve patient outcomes",
     name ++ " could use your " ++ offering ++ " to enhance their healthcare delivery while reducing costs",
     "The healthcare industry faces unique challenges that your " ++ offering ++ " can help " ++ name ++ " overcome"]
  else if ind == "Retail" then
    ["Retailers like " ++ name ++ " can use your " ++ offering ++ " to enhance customer experience and drive sales",
     name ++ " needs solutions like your " ++ offering ++ " to compete effectively in today\x27s digital retail landscape",
     "Your " ++ offering ++ " could help " ++ name ++ " optimize their inventory management and supply chain"]
  else if ind == "Manufacturing" then
    ["Manufacturing companies like " ++ name ++ " can improve production efficiency with your " ++ offering,
     name ++ " could leverage your " ++ offering ++ " to reduce waste and optimize their manufacturing processes",
     "Your " ++ offering ++ " addresses key challenges that " ++ name ++ " faces in the manufacturing industry"]
  else if ind == "Education" then
    ["Educational institutions like " ++ name ++ " can enhance learning outcomes with your " ++ offering,
     name ++ " could use your " ++ offering ++ " to improve administrative efficiency and focus on their core mission",
     "Your " ++ offering ++ " provides solutions to the unique challenges " ++ name ++ " faces in the education sector"]
  else if ind == "Consulting" then
    ["Consulting firms like " ++ name ++ " can deliver more value to their clients using your " ++ offering,
     name ++ " could integrate your " ++ offering ++ " into their service offerings to clients",
     "Your " ++ offering ++ " addresses operational challenges that consulting firms like " ++ name ++ " commonly face"]
  else []

/-- The category_reasons entries of generate_specific_match_reason
(lines 596-617). -/
def category_reason_list (cat name offering : String) : List String :=
  let _ := offering
  if cat == "tech_solution" then
    ["Your technology solution could help " ++ name ++ " modernize their operations",
     name ++ " is likely looking for innovative solutions like yours to stay competitive"]
  else if cat == "digital_transformation" then
    ["As companies like " ++ name ++ " undergo digital transformation, your offering provides essential capabilities",
     name ++ " needs partners with expertise in digital transformation to evolve their business model"]
  else if cat == "professional_service" then
    ["Your professional services align with " ++ name ++ "\x27s need for specialized expertise",
     name ++ " could benefit from your industry knowledge and professional guidance"]
  else if cat == "business_advisory" then
    ["Your strategic advisory services could help " ++ name ++ " navigate industry challenges",
     name ++ " would benefit from your business insights to optimize their operations"]
  else if cat == "product_solution" then
    ["Your product offering addresses specific needs in " ++ name ++ "\x27s operational workflow",
     name ++ " is likely seeking products like yours to enhance their capabilities"]
  else []

/-- Model of generate_specific_match_reason (lines 551-637): the union of the
industry and category reason lists, the generic triple when both are empty,
and one random.choice draw. -/
def generate_specific_match_reason (g : PyRandom) (k : Nat) (m : CompanyRec)
    (offering category : String) : String × Nat :=
  let reasons := industry_reason_list m.industry m.name (strLower m.size) offering ++
                 category_reason_list category m.name offering
  let reasons :=
    if reasons.isEmpty then
      [m.name ++ " could benefit from your " ++ offering ++ " to improve their business operations",
       "Your " ++ offering ++ " addresses challenges that companies like " ++ m.name ++ " commonly face",
       "As a " ++ strLower m.size ++ " company in the " ++ strLower m.industry ++ " industry, " ++ m.name ++ " needs solutions like your " ++ offering]
    else reasons
  (choiceStr g k reasons, k + 1)

end LeadFinder

namespace LeadFinder

/-- One match dict of determine_potential_matches (lines 386-394), keys in
the insertion order of the source literal. -/
def match_from_company (m : CompanyRec) (score : Int) (reason cat : String) : PyDict :=
  [("company_name", .jstr m.name),
   ("domain", .jstr m.domain),
   ("industry", .jstr m.industry),
   ("size", .jstr m.size),
   ("match_score", .jnum score),
   ("match_reason", .jstr reason),
   ("offering_category", .jstr cat)]

/-- The per-company loop of determine_potential_matches (lines 379-394):
one score and one reason draw per company. -/
def per_company_go (g : PyRandom) (offering : String) (tm : JVal)
    (companySize cat : String) (k : Nat) : List CompanyRec → List PyDict × Nat
  | [] => ([], k)
  | m :: t =>
    let (score, k1) := calculate_match_score g k m offering tm companySize
    let (reason, k2) := generate_specific_match_reason g k1 m offering cat
    let (rest, k3) := per_company_go g offering tm companySize cat k2 t
    (match_from_company m score reason cat :: rest, k3)

/-- The per-category loop of determine_potential_matches (lines 375-394). -/
def per_category_go (g : PyRandom) (offering : String) (tm : JVal)
    (companySize srcIndustry : String) (k : Nat) : List String → List PyDict × Nat
  | [] => ([], k)
  | cat :: t =>
    let (ms, k1) := find_companies_for_category g k cat srcIndustry companySize
    let (ds, k2) := per_company_go g offering tm companySize cat k1 ms
    let (rest, k3) := per_category_go g offering tm companySize srcIndustry k2 t
    (ds ++ rest, k3)

/-- The per-offering loop of determine_potential_matches (lines 368-394). -/
def per_offering_go (g : PyRandom) (tm : JVal) (companySize srcIndustry : String)
    (k : Nat) : List String → List PyDict × Nat
  | [] => ([], k)
  | off :: t =>
    let cats := categorize_offering (strLower off)
    let (ds, k1) := per_category_go g off tm companySize srcIndustry k cats
    let (rest, k2) := per_offering_go g tm companySize srcIndustry k1 t
    (ds ++ rest, k2)

/-- Duplicate removal keeping the first occurrence of each domain
(lines 396-403); domains on this path are always strings. -/
def dedup_by_domain (seen : List String) : List PyDict → List PyDict
  | [] => []
  | m :: t =>
    let d := pyStr (getD m "domain" (.jstr ""))
    if seen.contains d then dedup_by_domain seen t
    else m :: dedup_by_domain (d :: seen) t

/-- The generic fill loop of determine_potential_matches (lines 406-421),
run when deduplication left nothing: up to three table entries with a random
size draw each. -/
def generic_go (g : PyRandom) (industry : String) (offs : List String) (k : Nat) :
    List Nat → List PyDict × Nat
  | [] => ([], k)
  | i :: t =>
    match getKey industry_companies industry, getKey industry_domains industry with
    | some ns, some ds =>
      if i < ns.length then
        let (sz, k1) := get_random_company_size g k
        let m : PyDict :=
          [("company_name", .jstr (ns.getD i "")),
           ("domain", .jstr (ds.getD i "")),
           ("industry", .jstr industry),
           ("size", .jstr sz),
           ("match_score", .jnum 65),
           ("match_reason", .jstr ("Companies in the " ++ industry ++ " industry often need " ++ offs.headD "professional services")),
           ("offering_category", .jstr "industry_match")]
        let (rest, k2) := generic_go g industry offs k1 t
        (m :: rest, k2)
      else generic_go g industry offs k t
    | _, _ => generic_go g industry offs k t

/-- The lead-generator copy of infer_offerings_from_industry
(lines 133-155), a pure function of industry and company type. -/
def infer_offerings_lg (industry companyType : String) : List String :=
  match getKey Analyzer.industry_offerings_table industry with
  | some offs => offs.take 3
  | none =>
    if companyType == "B2B" then ["Business Services", "Professional Solutions", "Enterprise Software"]
    else if companyType == "B2C" then ["Consumer Products", "Customer Services", "Retail Solutions"]
    else ["Professional Services", "Industry Solutions", "Specialized Expertise"]

/-- Model of determine_potential_matches (lines 352-423): offerings and
target market coerced from bare strings to lists, the sentinel or empty
offerings replaced by the inferred triple, the three nested loops, duplicate
domains removed, and the generic fill when nothing remains.  A non-list,
non-string offerings value would be iterated in Python and raise; the
modelled runs only reach this function with list-shaped offerings. -/
def determine_potential_matches (g : PyRandom) (k : Nat) (industry : String)
    (offerings0 : JVal) (targetMarket0 : JVal) (companySize : String) :
    List PyDict × Nat :=
  let offeringsL : JVal :=
    match offerings0 with
    | .jstr s => .jarr [.jstr s]
    | v => v
  let tm : JVal :=
    match targetMarket0 with
    | .jstr s => .jarr [.jstr s]
    | v => v
  let offs : List String :=
    match offeringsL with
    | .jarr xs =>
      if xs.isEmpty ||
         (match xs with
          | [JVal.jstr s] => s == "Unknown - LLM analysis required"
          | _ => false)
      then infer_offerings_lg industry "B2B"
      else xs.map pyStr
    | _ => infer_offerings_lg industry "B2B"
  let (pm, k1) := per_offering_go g tm companySize industry k offs
  let unique := dedup_by_domain [] pm
  if unique.isEmpty then generic_go g industry offs k1 (List.range 3)
  else (unique, k1)

/-- Duplicate removal keeping the first occurrence of each element, in
order: Python list(dict.fromkeys(l)). -/
def dedupKeepFirst (seen : List String) : List String → List String
  | [] => []
  | x :: t => if seen.contains x then dedupKeepFirst seen t else x :: dedupKeepFirst (x :: seen) t

/-- Model of get_target_roles_for_match (lines 663-709): up to two roles
from the industry table plus up to two from the category table, the generic
triple when both are absent, duplicates removed keeping first
occurrences. -/
def get_target_roles_for_match (m : PyDict) : List String :=
  let industry := pyStr (getD m "industry" (.jstr ""))
  let category := pyStr (getD m "offering_category" (.jstr "business_solution"))
  let roles := ((getKey industry_roles industry).getD []).take 2 ++
               ((getKey category_roles category).getD []).take 2
  let roles :=
    if roles.isEmpty then ["COO", "Operations Director", "Business Development Manager"]
    else roles
  dedupKeepFirst [] roles

end LeadFinder

namespace LeadFinder

/-- The role-keyed base suggestions of generate_outreach_suggestions
(lines 810-826): substring tests on the role select one of the five fixed
lists, with the generic triple otherwise. -/
def role_based_suggestions (role : String) : List String :=
  if strHas role "CTO" || strHas role "IT" || strHas role "Technical"
     || strHas role "Technology" || strHas role "Digital" then
    (getKey role_suggestions "CTO").getD []
  else if strHas role "CIO" then (getKey role_suggestions "CIO").getD []
  else if strHas role "COO" || strHas role "Operations" then (getKey role_suggestions "COO").getD []
  else if strHas role "CMO" || strHas role "Marketing" then (getKey role_suggestions "CMO").getD []
  else if strHas role "CFO" || strHas role "Finance" then (getKey role_suggestions "CFO").getD []
  else
    ["Highlight how your solution addresses their specific industry challenges",
     "Focus on the business value and ROI of your offering",
     "Personalize your approach based on their role and responsibilities"]

/-- The offerings list as read by generate_outreach_suggestions
(lines 777-779): dict.get with an empty-list default and a bare string
wrapped into a one-element list.  A non-list, non-string value stays scalar
in Python and would raise at the subscript; it is boxed here and never
reached by the modelled runs. -/
def outreach_offerings (companyAnalysis : PyDict) : List JVal :=
  match getD companyAnalysis "offerings" (.jarr []) with
  | JVal.jstr s => [.jstr s]
  | JVal.jarr xs => xs
  | v => [v]

/-- Model of generate_outreach_suggestions (lines 773-833): the role-keyed
base list, plus one offering-specific line when the offerings are non-empty
and not the sentinel list.  The source never caps the result. -/
def generate_outreach_suggestions (role : String) (companyAnalysis : PyDict) :
    List String :=
  let offerings := outreach_offerings companyAnalysis
  let suggestions := role_based_suggestions role
  let isSentinel :=
    match offerings with
    | [JVal.jstr s] => s == "Unknown - LLM analysis required"
    | _ => false
  if !offerings.isEmpty && !isSentinel then
    suggestions ++
      ["Mention specific benefits of your " ++ pyStr (offerings.headD (.jstr "solution")) ++ " for their role"]
  else suggestions

/-- Model of generate_name_for_role (lines 733-755): one first-name and one
last-name draw; the source concatenates them with a space and the caller
splits them back apart, so the pair is returned directly. -/
def generate_name_for_role (g : PyRandom) (k : Nat) (_role : String) :
    (String × String) × Nat :=
  ((choiceStr g k first_names, choiceStr g (k + 1) last_names), k + 2)

/-- Application of one email pattern of the constructor list (lines 757-771),
matching on the pattern string; first_initial on an empty name would raise in
Python and the pools contain no empty names. -/
def format_email (pattern first last domain : String) : String :=
  let f := strLower first
  let l := strLower last
  let fi := strLower (String.mk (first.data.take 1))
  let li := strLower (String.mk (last.data.take 1))
  if pattern == "{first}.{last}@{domain}" then f ++ "." ++ l ++ "@" ++ domain
  else if pattern == "{first_initial}{last}@{domain}" then fi ++ l ++ "@" ++ domain
  else if pattern == "{first}@{domain}" then f ++ "@" ++ domain
  else if pattern == "{last}@{domain}" then l ++ "@" ++ domain
  else if pattern == "{first_initial}.{last}@{domain}" then fi ++ "." ++ l ++ "@" ++ domain
  else if pattern == "{first}{last_initial}@{domain}" then f ++ li ++ "@" ++ domain
  else ""

/-- Model of generate_email (lines 757-771): one pattern draw, then the
pattern applied. -/
def generate_email (g : PyRandom) (k : Nat) (first last domain : String) :
    String × Nat :=
  (format_email (choiceStr g k email_patterns) first last domain, k + 1)

/-- Model of create_lead_for_role (lines 711-731): fabricated name, email and
outreach suggestions, keys in the insertion order of the source literal. -/
def create_lead_for_role (g : PyRandom) (k : Nat) (role domain : String)
    (companyAnalysis : PyDict) : PyDict × Nat :=
  let (nm, k1) := generate_name_for_role g k role
  let (email, k2) := generate_email g k1 nm.1 nm.2 domain
  let outreach := generate_outreach_suggestions role companyAnalysis
  ([("name", .jstr (nm.1 ++ " " ++ nm.2)),
    ("role", .jstr role),
    ("email", .jstr email),
    ("outreach_suggestions", .jarr (outreach.map .jstr))], k2)

/-- Model of calculate_potential_value (lines 654-662): thresholds on the
match score. -/
def calculate_potential_value (m : PyDict) (_companyAnalysis : PyDict) : String :=
  let s := jnumVal (getD m "match_score" .jnull)
  if s ≥ 85 then "High" else if s ≥ 70 then "Medium" else "Low"

/-- The loop body of generate_external_leads (lines 107-129): pick the first
target role, fabricate the contact at the domain of the match, then attach
the external-lead fields.  The company_size branch of lines 124-128 is
expressed as a conditional value on a single assignment. -/
def mk_external_lead (g : PyRandom) (k : Nat) (companyAnalysis : PyDict)
    (m : PyDict) : PyDict × Nat :=
  let roles := get_target_roles_for_match m
  let role := roles.headD "Director of Operations"
  let (lead0, k1) := create_lead_for_role g k role (pyStr (getD m "domain" (.jstr ""))) companyAnalysis
  let scoreV := getD m "match_score" .jnull
  let lead := setKey lead0 "lead_type" (.jstr "external")
  let lead := setKey lead "company_name" (getD m "company_name" .jnull)
  let lead := setKey lead "match_score" scoreV
  let lead := setKey lead "match_percentage" (.jstr (pyStr scoreV ++ "%"))
  let lead := setKey lead "target_reason" (getD m "match_reason" .jnull)
  let lead := setKey lead "potential_value" (.jstr (calculate_potential_value m companyAnalysis))
  let lead := setKey lead "industry" (getD m "industry" .jnull)
  let lead := setKey lead "company_size"
    (if hasKey m "size" then getD m "size" .jnull else .jstr "Medium")
  (lead, k1)

/-- The lead loop over the selected matches, threading the draw counter. -/
def build_leads (g : PyRandom) (companyAnalysis : PyDict) (k : Nat) :
    List PyDict → List PyDict × Nat
  | [] => ([], k)
  | m :: t =>
    let (l, k1) := mk_external_lead g k companyAnalysis m
    let (ls, k2) := build_leads g companyAnalysis k1 t
    (l :: ls, k2)

/-- Stable descending insertion by match score: the new, originally later
element is placed after existing elements with an equal or higher score. -/
def insertDesc (m : PyDict) : List PyDict → List PyDict
  | [] => [m]
  | x :: t =>
    if jnumVal (getD x "match_score" .jnull) ≥ jnumVal (getD m "match_score" .jnull)
    then x :: insertDesc m t
    else m :: x :: t

/-- Model of list.sort(key=match_score, reverse=True) (line 105): a stable
descending sort. -/
def sortDesc (l : List PyDict) : List PyDict :=
  l.foldl (fun acc m => insertDesc m acc) []

/-- Model of generate_external_leads (lines 78-131): extract the profile
fields, replace empty or sentinel offerings by the inferred triple, get
candidates from the LLM path (with its internal fallback), fall through to
the deterministic path when that list is empty, draw randint(4, 6), sort by
descending score and build one external lead per selected match.  The
description field only shapes the prompt; the domain argument is unused in
the source body as well. -/
def generate_external_leads (g : PyRandom) (k : Nat) (companyAnalysis : PyDict)
    (_domain : String) (llmParsed : Option JVal) : List PyDict × Nat :=
  let industry := pyStr (getD companyAnalysis "industry" (.jstr "Unknown"))
  let companyType := pyStr (getD companyAnalysis "company_type" (.jstr "B2B"))
  let targetMarket := getD companyAnalysis "target_market" (.jarr [])
  let offerings0 := getD companyAnalysis "offerings" (.jarr [])
  let companySize := pyStr (getD companyAnalysis "company_size" (.jstr "Medium"))
  let offerings : JVal :=
    if !pyTruthy offerings0 ||
       (match offerings0 with
        | JVal.jarr [JVal.jstr s] => s == "Unknown - LLM analysis required"
        | _ => false)
    then .jarr ((infer_offerings_lg industry companyType).map .jstr)
    else offerings0
  let (pm0, k1) := generate_potential_matches_with_llm g k llmParsed industry offerings targetMarket companySize
  let (pm, k2) :=
    if pm0.isEmpty then determine_potential_matches g k1 industry offerings targetMarket companySize
    else (pm0, k1)
  let numLeads := min pm.length (g.randint k2 4 6).toNat
  let sorted := sortDesc pm
  build_leads g companyAnalysis (k2 + 1) (sorted.take numLeads)

/-- Configuration of a LeadGenerator instance (lines 16-19). -/
structure LeadGenerator where
  use_cache : Bool
  cache_expiry : Int

/-- The constructor with its default cache expiry of 86400 seconds, as
instantiated by the module-level generate_leads (line 872). -/
def lg_init (useCache : Bool) : LeadGenerator :=
  { use_cache := useCache, cache_expiry := 86400 }

/-- Model of LeadGenerator.check_cache (lines 834-856) over a key-value
store: the stored payload dict must have a numeric timestamp inside the
expiry window; the leads are then read with a get defaulting to the empty
list.  Stored leads are kept as dicts boxed in jobj. -/
def lg_check_cache (gen : LeadGenerator) (store : List (String × PyDict))
    (now : Int) (key : String) : Option (List PyDict) :=
  match getKey store key with
  | none => none
  | some d =>
    match getKey d "timestamp" with
    | some (.jnum t) =>
      if now - t > gen.cache_expiry then none
      else some
        (match getKey d "leads" with
         | some (.jarr xs) => xs.filterMap (fun v =>
             match v with
             | JVal.jobj fs => some fs
             | _ => none)
         | _ => [])
    | _ => none

/-- The fresh path of generate_leads (lines 62-76): generate the external
leads, store them with a timestamp under the leads key, and return them. -/
def lg_fresh (gen : LeadGenerator) (store : List (String × PyDict)) (now : Int)
    (g : PyRandom) (k : Nat) (companyAnalysis : PyDict) (domain : String)
    (llmParsed : Option JVal) : List PyDict × List (String × PyDict) :=
  let key := "leads_" ++ domain
  let (leads, _) := generate_external_leads g k companyAnalysis domain llmParsed
  let store2 :=
    if gen.use_cache then
      setKey store key [("leads", .jarr (leads.map .jobj)), ("timestamp", .jnum now)]
    else store
  (leads, store2)

/-- Model of LeadGenerator.generate_leads (lines 52-76), the entry point of
the matcher: a truthy cached leads list is returned as is; otherwise the
fresh path runs and its result is cached. -/
def generate_leads (gen : LeadGenerator) (store : List (String × PyDict))
    (now : Int) (g : PyRandom) (k : Nat) (companyAnalysis : PyDict)
    (domain : String) (llmParsed : Option JVal) :
    List PyDict × List (String × PyDict) :=
  let key := "leads_" ++ domain
  let cached := if gen.use_cache then lg_check_cache gen store now key else none
  match cached with
  | some ls =>
    if !ls.isEmpty then (ls, store)
    else lg_fresh gen store now g k companyAnalysis domain llmParsed
  | none => lg_fresh gen store now g k companyAnalysis domain llmParsed

/-- The module-level generate_leads (lines 870-873): a fresh LeadGenerator
instance per call. -/
def module_generate_leads (useCache : Bool) (store : List (String × PyDict))
    (now : Int) (g : PyRandom) (k : Nat) (companyAnalysis : PyDict)
    (domain : String) (llmParsed : Option JVal) :
    List PyDict × List (String × PyDict) :=
  generate_leads (lg_init useCache) store now g k companyAnalysis domain llmParsed

/-- Whether a lead carries lead_type internal. -/
def isInternalLead (l : PyDict) : Bool :=
  match getKey l "lead_type" with
  | some (JVal.jstr s) => s == "internal"
  | _ => false

/-- Whether a lead carries lead_type external. -/
def isExternalLead (l : PyDict) : Bool :=
  match getKey l "lead_type" with
  | some (JVal.jstr s) => s == "external"
  | _ => false

/-- The length of the outreach_suggestions list of a lead. -/
def outreachLen (l : PyDict) : Nat :=
  match getKey l "outreach_suggestions" with
  | some (JVal.jarr xs) => xs.length
  | _ => 0

/-- Whether the outreach_suggestions of a lead are a list of strings of
length 3 or 4. -/
def outreach_ok (l : PyDict) : Bool :=
  match getKey l "outreach_suggestions" with
  | some (JVal.jarr xs) =>
    xs.all (fun v =>
      match v with
      | JVal.jstr _ => true
      | _ => false) && (xs.length == 3 || xs.length == 4)
  | _ => false

/-- Whether a match candidate carries an integer match_score within the
range 0 to 100. -/
def score_in_range (m : PyDict) : Bool :=
  match getKey m "match_score" with
  | some (JVal.jnum n) => decide (0 ≤ n) && decide (n ≤ 100)
  | _ => false

end LeadFinder

/-- A deterministic random oracle for concrete runs: randint returns the lower
bound, choice the first element, shuffle the identity. -/
def detRandom : LeadFinder.PyRandom :=
  { randint := fun _ lo _ => lo, idx := fun _ _ => 0, perm := fun _ l => l }

/-- The response text of the claim C8 scenario, with real newlines and a
fenced JSON block. -/
def c8text : String :=
  "Here is the result:\n```json\n\x7b\"industry\": \"Finance\"\x7d\n```\nThanks!"

/-- The property asserted by claim C2, as a decidable check: every recognized
CompanyProfile key present and every list-typed field stored as a list. -/
def c2_claim_holds (p : PyDict) : Bool :=
  (["company_type", "industry", "company_size", "target_market", "offerings",
    "decision_maker_roles", "pain_points", "timestamp"].all (fun k => hasKey p k)) &&
  (["target_market", "offerings", "pain_points", "decision_maker_roles"].all (fun k =>
    match getKey p k with
    | some (JVal.jarr _) => true
    | _ => false))

/-- An LLM response for the C2 counterexample: a parsed object whose offerings
value is the number 5. -/
def c2input : PyDict := [("offerings", .jnum 5)]

/-- Arbitrary fallback leaves for concrete analyzer runs. -/
def c2leaves : Analyzer.FallbackLeaves :=
  ⟨"B2B", "Technology", "Medium", [], [], "Unknown", .jnull⟩

/-- The profile produced by a fresh analysis of the C2 counterexample
response. -/
def c2profile_run : PyDict :=
  Analyzer.analyze_fresh (Analyzer.init false "gpt-4.1-nano" true 86400) "content"
    (some c2input) c2leaves 0

/-- The input profile of the claim C1 scenario. -/
def c1profile : PyDict :=
  [("company_type", .jstr "B2B"), ("industry", .jstr "Technology"),
   ("target_market", .jarr [.jstr "Enterprise companies"]),
   ("offerings", .jarr [.jstr "Cloud solutions", .jstr "Data analytics"]),
   ("company_size", .jstr "Medium"),
   ("decision_maker_roles", .jarr [.jstr "CTO", .jstr "VP of Engineering"])]

/-- The lead list produced by the matcher entry point on the claim C1
scenario (cold cache, deterministic random oracle, LLM unavailable). -/
def c1run : List PyDict :=
  (LeadFinder.generate_leads (LeadFinder.lg_init true) [] 0 detRandom 0 c1profile
    "example.com" none).1

/-- The parsed LLM response of the C4 counterexample: a valid candidate whose
match score is the string 150 percent. -/
def c4data : JVal :=
  .jobj [("potential_matches", .jarr
    [.jobj [("company_name", .jstr "Acme Corp"), ("industry", .jstr "Finance"),
            ("match_reason", .jstr "needs analytics"), ("match_score", .jstr "150%")]])]

/-- The candidates produced by the LLM match generator on the C4
counterexample response. -/
def c4run : List PyDict :=
  (LeadFinder.generate_potential_matches_with_llm detRandom 0 (some c4data) "Technology"
    (.jarr [.jstr "Cloud solutions"]) (.jarr []) "Medium").1

theorem getKey_setKey_self {α : Type} (l : List (String × α)) (k : String) (v : α) :
    getKey (setKey l k v) k = some v := by
  induction l with
  | nil => simp [getKey, setKey]
  | cons h t ih =>
    obtain ⟨k1, w⟩ := h
    by_cases hk : k1 = k
    · simp [getKey, setKey, hk]
    · simp [getKey, setKey, hk, ih]

theorem getKey_setKey_ne {α : Type} (l : List (String × α)) (k : String) (v : α)
    (k2 : String) (h : k ≠ k2) : getKey (setKey l k v) k2 = getKey l k2 := by
  induction l with
  | nil => simp [getKey, setKey, h]
  | cons hd t ih =>
    obtain ⟨k1, w⟩ := hd
    by_cases hk : k1 = k
    · subst hk
      simp [getKey, setKey, h]
    · simp [getKey, setKey, hk, ih]

theorem setKey_ne_nil {α : Type} (l : List (String × α)) (k : String) (v : α) :
    (setKey l k v).isEmpty = false := by
  cases l with
  | nil => simp [setKey]
  | cons hd t =>
    obtain ⟨k1, w⟩ := hd
    by_cases hk : k1 = k <;> simp [setKey, hk]

theorem getKey_mem {α : Type} :
    ∀ {l : List (String × α)} {k : String} {v : α}, getKey l k = some v → (k, v) ∈ l := by
  intro l
  induction l with
  | nil => intro k v h; simp [getKey] at h
  | cons hd t ih =>
    intro k v h
    obtain ⟨k1, w⟩ := hd
    by_cases hk : k1 = k
    · subst hk
      simp [getKey] at h
      simp [h]
    · simp [getKey, hk] at h
      exact List.mem_cons_of_mem _ (ih h)

theorem LlmInterface.firstSuccess_none (attempts : Nat → Option String) :
    ∀ (n start : Nat), (∀ i, start ≤ i → i < start + n → attempts i = none) →
      LlmInterface.firstSuccess attempts start n = none := by
  intro n
  induction n with
  | zero => intro start _; rfl
  | succ m ih =>
    intro start h
    have h0 : attempts start = none := h start (le_refl _) (by omega)
    simp only [LlmInterface.firstSuccess, h0]
    exact ih (start + 1) (fun i h1 h2 => h i (by omega) (by omega))

/-- Claim C7: the LLM gateway never raises: with no API key it returns the
fixed not-configured sentinel, with no client the client sentinel, and when
every attempt fails it returns the fixed failure sentinel after the retry
loop; by construction the model is a total function into strings. -/
theorem C7_gateway_fails_soft (cfg : LlmInterface.Config)
    (attempts : Nat → Option String) (maxRetries : Nat) :
    (cfg.apiKeySet = false →
      LlmInterface.query_llm cfg attempts maxRetries = "OpenAI API key is not set") ∧
    (cfg.apiKeySet = true → cfg.clientInit = false →
      LlmInterface.query_llm cfg attempts maxRetries = "OpenAI client is not initialized") ∧
    (cfg.apiKeySet = true → cfg.clientInit = true →
      (∀ i, i < maxRetries → attempts i = none) →
      LlmInterface.query_llm cfg attempts maxRetries = "Failed to get response from LLM") := by
  refine ⟨fun h1 => ?_, fun h1 h2 => ?_, fun h1 h2 h3 => ?_⟩
  · simp [LlmInterface.query_llm, h1]
  · simp [LlmInterface.query_llm, h1, h2]
  · have hn : LlmInterface.firstSuccess attempts 0 maxRetries = none :=
      LlmInterface.firstSuccess_none attempts maxRetries 0
        (fun i _ hi => h3 i (by omega))
    simp [LlmInterface.query_llm, h1, h2, hn]

/-- Witness for claim C7 at the three concrete configurations. -/
theorem C7_gateway_fails_soft_witness :
    LlmInterface.query_llm ⟨false, false⟩ (fun _ => none) 3 = "OpenAI API key is not set" ∧
    LlmInterface.query_llm ⟨true, false⟩ (fun _ => none) 3 = "OpenAI client is not initialized" ∧
    LlmInterface.query_llm ⟨true, true⟩ (fun _ => none) 3 = "Failed to get response from LLM" :=
  ⟨(C7_gateway_fails_soft ⟨false, false⟩ (fun _ => none) 3).1 rfl,
   (C7_gateway_fails_soft ⟨true, false⟩ (fun _ => none) 3).2.1 rfl rfl,
   (C7_gateway_fails_soft ⟨true, true⟩ (fun _ => none) 3).2.2 rfl rfl (fun _ _ => rfl)⟩

/-- Claim C8: the response parser returns the industry Finance object for the
fenced scenario text, and for every input it returns a parsed value or none
(the model is a total function into an option, mirroring that every parse
failure in the source is caught). -/
theorem C8_response_extraction :
    extract_json_from_response c8text = some (.jobj [("industry", .jstr "Finance")]) ∧
    (∀ s : String, extract_json_from_response s = none ∨
      ∃ v, extract_json_from_response s = some v) := by
  refine ⟨by rfl, fun s => ?_⟩
  cases h : extract_json_from_response s with
  | none => exact Or.inl rfl
  | some v => exact Or.inr ⟨v, rfl⟩

open LeadFinder in
theorem relevance_table_bound :
    industry_relevance.all (fun e => e.2.all (fun p => decide (0 ≤ p.2) && decide (p.2 ≤ 20))) = true := by
  decide

open LeadFinder in
theorem spec_industry_bonus_bound (cat ind : String) :
    0 ≤ spec_industry_bonus cat ind ∧ spec_industry_bonus cat ind ≤ 20 := by
  unfold spec_industry_bonus
  cases h1 : getKey industry_relevance cat with
  | none => simp
  | some tbl =>
    cases h2 : getKey tbl ind with
    | none => dsimp only; simp [h2]
    | some v =>
      dsimp only
      rw [h2]
      simp only [Option.getD_some]
      have hm1 := getKey_mem h1
      have hm2 := getKey_mem h2
      have hall := relevance_table_bound
      rw [List.all_eq_true] at hall
      have he := hall _ hm1
      simp only [List.all_eq_true] at he
      have hv := he _ hm2
      simp only [Bool.and_eq_true, decide_eq_true_eq] at hv
      exact hv

open LeadFinder in
/-- Claim C5: on the deterministic fallback scoring path the computed score
equals the clamp to 0-100 of min(95, 70 + industry bonus + size bonus) plus
the jitter, where the industry bonus is the fixed table value in 0-20 (0 when
absent) and the size bonus is 10, 5 or 0 as specified; the jitter done by
randint is in the range -5 to 5. -/
theorem C5_det_score_formula (g : PyRandom) (k : Nat) (m : CompanyRec)
    (offering : String) (tm : JVal) (companySize : String)
    (_hj : -5 ≤ g.randint k (-5) 5 ∧ g.randint k (-5) 5 ≤ 5) :
    (0 ≤ spec_industry_bonus ((categorize_offering (strLower offering)).headD "business_solution") m.industry ∧
     spec_industry_bonus ((categorize_offering (strLower offering)).headD "business_solution") m.industry ≤ 20) ∧
    (calculate_match_score g k m offering tm companySize).1 =
      spec_match_score
        (spec_industry_bonus ((categorize_offering (strLower offering)).headD "business_solution") m.industry)
        (spec_size_bonus m.size companySize)
        (g.randint k (-5) 5) := by
  refine ⟨spec_industry_bonus_bound _ _, ?_⟩
  simp only [calculate_match_score, spec_match_score, spec_industry_bonus, spec_size_bonus]
  rw [min_comm _ (95 : Int)]

open LeadFinder in
/-- Witness for claim C5 at a concrete candidate and offering. -/
theorem C5_det_score_formula_witness :
    (-5 ≤ detRandom.randint 0 (-5) 5 ∧ detRandom.randint 0 (-5) 5 ≤ 5) ∧
    (calculate_match_score detRandom 0 ⟨"FinancialGroup", "financialgroup.com", "Finance", "Medium"⟩
        "Cloud solutions" (.jarr []) "Medium").1 =
      spec_match_score
        (spec_industry_bonus ((categorize_offering (strLower "Cloud solutions")).headD "business_solution") "Finance")
        (spec_size_bonus "Medium" "Medium")
        (detRandom.randint 0 (-5) 5) :=
  ⟨by decide,
   (C5_det_score_formula detRandom 0 ⟨"FinancialGroup", "financialgroup.com", "Finance", "Medium"⟩
     "Cloud solutions" (.jarr []) "Medium" (by decide)).2⟩

open Analyzer in
/-- Claim C9: the observable behaviour of the analyzer is independent of the
use_local_llm flag: the constructor overwrites it with False, so two
instances differing only in that argument (also via the module entry point)
are equal, and the local-LLM branch of the offerings extraction is
unreachable, making the extraction independent of the local model
response. -/
theorem C9_local_llm_flag_inert (a b : Bool) (mn : String) (uc : Bool) (ce : Int) :
    init a mn uc ce = init b mn uc ce ∧
    (init a mn uc ce).use_local_llm = false ∧
    module_analyzer a mn uc = module_analyzer b mn uc ∧
    (∀ (content : String) (lv lv2 : FallbackLeaves),
      lv.patternsText = lv2.patternsText →
      extract_offerings (init a mn uc ce) content lv =
        extract_offerings (init b mn uc ce) content lv2) := by
  refine ⟨rfl, rfl, rfl, fun content lv lv2 hpt => ?_⟩
  simp only [extract_offerings, init, Bool.false_eq_true, if_false]
  rw [hpt]

open Analyzer in
/-- Witness for claim C9: flipping the flag and the local model response
changes nothing. -/
theorem C9_local_llm_flag_inert_witness :
    init true "gpt-4.1-nano" true 86400 = init false "gpt-4.1-nano" true 86400 ∧
    extract_offerings (init true "gpt-4.1-nano" true 86400) "We provide software"
        ⟨"B2B", "Technology", "Medium", [], [], "Unknown", .jstr "x"⟩ =
      extract_offerings (init false "gpt-4.1-nano" true 86400) "We provide software"
        ⟨"B2B", "Technology", "Medium", [], [], "Unknown", .jnum 7⟩ :=
  ⟨(C9_local_llm_flag_inert true false "gpt-4.1-nano" true 86400).1,
   (C9_local_llm_flag_inert true false "gpt-4.1-nano" true 86400).2.2.2
     "We provide software" _ _ rfl⟩

open Analyzer in
/-- Claim C10: on a fresh instance built by the module entry point (stored
analysis still empty) the offerings synthesized when the pattern extraction
yields nothing usable are always the generic B2B triple, for every content,
because infer_offerings_from_industry reads the empty instance dict rather
than the content. -/
theorem C10_fresh_instance_generic_offerings (u : Bool) (mn : String) (uc : Bool)
    (content : String) (lv : FallbackLeaves)
    (hc : content ≠ "")
    (hu : lv.patternsText = "" ∨ strLower lv.patternsText = "unknown" ∨
          filterOfferings (splitOfferings lv.patternsText) = []) :
    extract_offerings (module_analyzer u mn uc) content lv =
      [.jstr "Business Services", .jstr "Professional Solutions", .jstr "Enterprise Software"] := by
  have hinf : List.map JVal.jstr (infer_offerings_from_industry []) =
      [JVal.jstr "Business Services", JVal.jstr "Professional Solutions", JVal.jstr "Enterprise Software"] := rfl
  simp only [extract_offerings, module_analyzer, init]
  have hcb : (content == "") = false := by
    simp [hc]
  rw [hcb]
  simp only [Bool.false_eq_true, if_false]
  rcases hu with h1 | h2 | h3
  · simp [h1, hinf]
  · by_cases hne : lv.patternsText = ""
    · simp [hne, hinf]
    · have hx : (lv.patternsText != "") = true := by simp [hne]
      simp [hx, h2, hinf]
  · by_cases hne : lv.patternsText = ""
    · simp [hne, hinf]
    · by_cases hlo : strLower lv.patternsText = "unknown"
      · simp [hne, hlo, hinf]
      · simp [hne, hlo, h3, hinf]

open Analyzer in
/-- Witness for claim C10 on content that matches the technology industry
pattern vocabulary. -/
theorem C10_fresh_instance_generic_offerings_witness :
    ("We build software for the technology industry" ≠ "") ∧
    extract_offerings (module_analyzer true "gpt-4.1-nano" true)
        "We build software for the technology industry"
        ⟨"B2B", "Technology", "Medium", [], [], "Unknown", .jnull⟩ =
      [.jstr "Business Services", .jstr "Professional Solutions", .jstr "Enterprise Software"] :=
  ⟨by decide,
   C10_fresh_instance_generic_offerings true "gpt-4.1-nano" true
     "We build software for the technology industry"
     ⟨"B2B", "Technology", "Medium", [], [], "Unknown", .jnull⟩
     (by decide) (Or.inr (Or.inl (by decide)))⟩

theorem hasKey_setKey_self {α : Type} (l : List (String × α)) (k : String) (v : α) :
    hasKey (setKey l k v) k = true := by
  simp [hasKey, getKey_setKey_self]

theorem hasKey_setKey_of {α : Type} (l : List (String × α)) (k : String) (v : α)
    (k2 : String) (h : hasKey l k2 = true) : hasKey (setKey l k v) k2 = true := by
  by_cases hk : k = k2
  · subst hk; exact hasKey_setKey_self l k v
  · simpa [hasKey, getKey_setKey_ne l k v k2 hk] using h

open Analyzer in
theorem getKey_ensureField_ne (r : PyDict) (k : String) (d : JVal) (k2 : String)
    (h : k ≠ k2) : getKey (ensureField r k d) k2 = getKey r k2 := by
  unfold ensureField
  cases h1 : getKey r k with
  | none =>
    dsimp only
    split
    · split
      · rw [getKey_setKey_ne _ _ _ _ h, getKey_setKey_ne _ _ _ _ h]
      · rw [getKey_setKey_ne _ _ _ _ h]
    · rw [getKey_setKey_ne _ _ _ _ h]
  | some v =>
    dsimp only
    by_cases ht : pyTruthy v = true
    · simp only [ht, if_true]
      split
      · split
        · rw [getKey_setKey_ne _ _ _ _ h]
        · rfl
      · rfl
    · simp only [Bool.not_eq_true] at ht
      simp only [ht, Bool.false_eq_true, if_false]
      split
      · split
        · rw [getKey_setKey_ne _ _ _ _ h, getKey_setKey_ne _ _ _ _ h]
        · rw [getKey_setKey_ne _ _ _ _ h]
      · rw [getKey_setKey_ne _ _ _ _ h]

open Analyzer in
theorem hasKey_ensureField_self (r : PyDict) (k : String) (d : JVal) :
    hasKey (ensureField r k d) k = true := by
  unfold ensureField
  cases h1 : getKey r k with
  | none =>
    dsimp only
    split
    · split
      · exact hasKey_setKey_self _ _ _
      · exact hasKey_setKey_self _ _ _
    · exact hasKey_setKey_self _ _ _
  | some v =>
    dsimp only
    by_cases ht : pyTruthy v = true
    · simp only [ht, if_true]
      split
      · split
        · exact hasKey_setKey_self _ _ _
        · simp [hasKey, h1]
      · simp [hasKey, h1]
    · simp only [Bool.not_eq_true] at ht
      simp only [ht, Bool.false_eq_true, if_false]
      split
      · split
        · exact hasKey_setKey_self _ _ _
        · exact hasKey_setKey_self _ _ _
      · exact hasKey_setKey_self _ _ _

open Analyzer in
theorem hasKey_ensureField_of (r : PyDict) (k : String) (d : JVal) (k2 : String)
    (h : hasKey r k2 = true) : hasKey (ensureField r k d) k2 = true := by
  by_cases hk : k = k2
  · subst hk; exact hasKey_ensureField_self r k d
  · simpa [hasKey, getKey_ensureField_ne r k d k2 hk] using h

open Analyzer in
theorem getKey_ensureField_not_str (r : PyDict) (k : String) (d : JVal)
    (hk : listCoerced k = true) :
    ∀ s, getKey (ensureField r k d) k ≠ some (.jstr s) := by
  intro s h
  unfold ensureField at h
  rw [hk] at h
  simp only [if_true] at h
  revert h
  split
  · intro h
    rw [getKey_setKey_self] at h
    simp at h
  · rename_i heq
    intro h
    rw [h] at heq
    exact heq s rfl

open Analyzer in
/-- Claim C2 (amended): every fresh analysis (LLM path or fallback) returns a
profile containing company_type, industry, company_size, target_market,
offerings, pain_points and timestamp; the three coercible list fields are
never bare strings, and on the fallback path they are always lists.  The
key decision_maker_roles is not ensured by the code (see the
counterexample). -/
theorem C2_amended_profile_keys (st : ContentAnalyzer) (content : String)
    (lp : Option PyDict) (lv : FallbackLeaves) (now : Int) :
    (hasKey (analyze_fresh st content lp lv now) "company_type" = true ∧
     hasKey (analyze_fresh st content lp lv now) "industry" = true ∧
     hasKey (analyze_fresh st content lp lv now) "company_size" = true ∧
     hasKey (analyze_fresh st content lp lv now) "target_market" = true ∧
     hasKey (analyze_fresh st content lp lv now) "offerings" = true ∧
     hasKey (analyze_fresh st content lp lv now) "pain_points" = true ∧
     hasKey (analyze_fresh st content lp lv now) "timestamp" = true) ∧
    ((∀ s, getKey (analyze_fresh st content lp lv now) "target_market" ≠ some (.jstr s)) ∧
     (∀ s, getKey (analyze_fresh st content lp lv now) "offerings" ≠ some (.jstr s)) ∧
     (∀ s, getKey (analyze_fresh st content lp lv now) "pain_points" ≠ some (.jstr s))) ∧
    (lp = none →
      (∃ xs, getKey (analyze_fresh st content lp lv now) "target_market" = some (.jarr xs)) ∧
      (∃ xs, getKey (analyze_fresh st content lp lv now) "offerings" = some (.jarr xs)) ∧
      (∃ xs, getKey (analyze_fresh st content lp lv now) "pain_points" = some (.jarr xs))) := by
  cases lp with
  | none =>
    refine ⟨⟨rfl, rfl, rfl, rfl, rfl, rfl, rfl⟩, ⟨?_, ?_, ?_⟩, fun _ => ⟨⟨_, rfl⟩, ⟨_, rfl⟩, ⟨_, rfl⟩⟩⟩
    · intro s h
      rw [show getKey (analyze_fresh st content none lv now) "target_market" =
          some (.jarr (lv.targetMarket.map .jstr)) from rfl] at h
      simp at h
    · intro s h
      rw [show getKey (analyze_fresh st content none lv now) "offerings" =
          some (.jarr (extract_offerings st content lv)) from rfl] at h
      simp at h
    · intro s h
      rw [show getKey (analyze_fresh st content none lv now) "pain_points" =
          some (.jarr (lv.painPoints.map .jstr)) from rfl] at h
      simp at h
  | some obj =>
    have hts : (("timestamp" : String) ≠ "company_type") ∧ ("timestamp" : String) ≠ "industry" ∧
        ("timestamp" : String) ≠ "company_size" ∧ ("timestamp" : String) ≠ "target_market" ∧
        ("timestamp" : String) ≠ "offerings" ∧ ("timestamp" : String) ≠ "pain_points" := by
      refine ⟨?_, ?_, ?_, ?_, ?_, ?_⟩ <;> decide
    have hp : analyze_fresh st content (some obj) lv now =
        setKey (ensureField (ensureField (ensureField (ensureField (ensureField (ensureField obj
          "company_type" (.jstr "Unknown")) "industry" (.jstr "Unknown"))
          "company_size" (.jstr "Unknown")) "target_market" (.jstr "Unknown"))
          "offerings" (.jarr [])) "pain_points" (.jarr []))
          "timestamp" (.jnum now) := rfl
    rw [hp]
    set e1 := ensureField obj "company_type" (.jstr "Unknown") with he1
    set e2 := ensureField e1 "industry" (.jstr "Unknown") with he2
    set e3 := ensureField e2 "company_size" (.jstr "Unknown") with he3
    set e4 := ensureField e3 "target_market" (.jstr "Unknown") with he4
    set e5 := ensureField e4 "offerings" (.jarr []) with he5
    set e6 := ensureField e5 "pain_points" (.jarr []) with he6
    refine ⟨⟨?_, ?_, ?_, ?_, ?_, ?_, ?_⟩, ⟨?_, ?_, ?_⟩, fun h => by cases h⟩
    · exact hasKey_setKey_of _ _ _ _ (by
        rw [he6]; refine hasKey_ensureField_of _ _ _ _ (by
          rw [he5]; refine hasKey_ensureField_of _ _ _ _ (by
            rw [he4]; refine hasKey_ensureField_of _ _ _ _ (by
              rw [he3]; refine hasKey_ensureField_of _ _ _ _ (by
                rw [he2]; refine hasKey_ensureField_of _ _ _ _ (by
                  rw [he1]; exact hasKey_ensureField_self _ _ _))))))
    · exact hasKey_setKey_of _ _ _ _ (by
        rw [he6]; refine hasKey_ensureField_of _ _ _ _ (by
          rw [he5]; refine hasKey_ensureField_of _ _ _ _ (by
            rw [he4]; refine hasKey_ensureField_of _ _ _ _ (by
              rw [he3]; refine hasKey_ensureField_of _ _ _ _ (by
                rw [he2]; exact hasKey_ensureField_self _ _ _)))))
    · exact hasKey_setKey_of _ _ _ _ (by
        rw [he6]; refine hasKey_ensureField_of _ _ _ _ (by
          rw [he5]; refine hasKey_ensureField_of _ _ _ _ (by
            rw [he4]; refine hasKey_ensureField_of _ _ _ _ (by
              rw [he3]; exact hasKey_ensureField_self _ _ _))))
    · exact hasKey_setKey_of _ _ _ _ (by
        rw [he6]; refine hasKey_ensureField_of _ _ _ _ (by
          rw [he5]; refine hasKey_ensureField_of _ _ _ _ (by
            rw [he4]; exact hasKey_ensureField_self _ _ _)))
    · exact hasKey_setKey_of _ _ _ _ (by
        rw [he6]; refine hasKey_ensureField_of _ _ _ _ (by
          rw [he5]; exact hasKey_ensureField_self _ _ _))
    · exact hasKey_setKey_of _ _ _ _ (by
        rw [he6]; exact hasKey_ensureField_self _ _ _)
    · exact hasKey_setKey_self _ _ _
    · intro s h
      rw [getKey_setKey_ne _ _ _ _ hts.2.2.2.1] at h
      rw [he6, getKey_ensureField_ne _ _ _ _ (by decide)] at h
      rw [he5, getKey_ensureField_ne _ _ _ _ (by decide)] at h
      exact getKey_ensureField_not_str e3 "target_market" (.jstr "Unknown") (by decide) s h
    · intro s h
      rw [getKey_setKey_ne _ _ _ _ hts.2.2.2.2.1] at h
      rw [he6, getKey_ensureField_ne _ _ _ _ (by decide)] at h
      exact getKey_ensureField_not_str e4 "offerings" (.jarr []) (by decide) s h
    · intro s h
      rw [getKey_setKey_ne _ _ _ _ hts.2.2.2.2.2] at h
      exact getKey_ensureField_not_str e5 "pain_points" (.jarr []) (by decide) s h

/-- Counterexample for claim C2: a fresh analysis of a parsed LLM object with
a numeric offerings value returns a profile without decision_maker_roles and
with a non-list offerings value, so the claimed invariant fails. -/
theorem C2_counterexample_missing_roles :
    c2_claim_holds c2profile_run = false ∧
    getKey c2profile_run "decision_maker_roles" = none ∧
    getKey c2profile_run "offerings" = some (.jnum 5) :=
  ⟨rfl, rfl, rfl⟩

/-- Witness for the amended claim C2 on the fallback path. -/
theorem C2_amended_profile_keys_witness :
    hasKey (Analyzer.analyze_fresh (Analyzer.init false "gpt-4.1-nano" true 86400)
      "content" none c2leaves 0) "timestamp" = true ∧
    (∃ xs, getKey (Analyzer.analyze_fresh (Analyzer.init false "gpt-4.1-nano" true 86400)
      "content" none c2leaves 0) "offerings" = some (.jarr xs)) :=
  ⟨(C2_amended_profile_keys (Analyzer.init false "gpt-4.1-nano" true 86400)
      "content" none c2leaves 0).1.2.2.2.2.2.2,
   ((C2_amended_profile_keys (Analyzer.init false "gpt-4.1-nano" true 86400)
      "content" none c2leaves 0).2.2 rfl).2.1⟩

open Analyzer in
/-- Claim C6: with caching enabled, a first call on a cold key followed by a
second call within the TTL window returns exactly the stored profile (with
the first timestamp), leaves the store unchanged and performs no new LLM
query. -/
theorem C6_cache_idempotent (st : ContentAnalyzer) (store : List (String × PyDict))
    (now1 now2 : Int) (domain content : String)
    (lp1 lp2 : Option PyDict) (lv1 lv2 : FallbackLeaves)
    (hc : st.use_cache = true)
    (hmiss : getKey store ("analysis_" ++ domain) = none)
    (httl : now2 - now1 ≤ st.cache_expiry) :
    getKey (analyze_company st store now1 domain content lp1 lv1).1 "timestamp" =
      some (.jnum now1) ∧
    analyze_company st (analyze_company st store now1 domain content lp1 lv1).2.1
        now2 domain content lp2 lv2 =
      ((analyze_company st store now1 domain content lp1 lv1).1,
       (analyze_company st store now1 domain content lp1 lv1).2.1, 0) := by
  have hck : check_cache st store now1 ("analysis_" ++ domain) = none := by
    unfold check_cache
    rw [hmiss]
  have hr1 : analyze_company st store now1 domain content lp1 lv1 =
      (analyze_fresh st content lp1 lv1 now1,
       setKey store ("analysis_" ++ domain) (analyze_fresh st content lp1 lv1 now1), 1) := by
    unfold analyze_company
    rw [hc]
    dsimp only
    rw [hck]
    simp
  have hts : getKey (analyze_fresh st content lp1 lv1 now1) "timestamp" =
      some (.jnum now1) := by
    unfold analyze_fresh
    exact getKey_setKey_self _ _ _
  have hne : (analyze_fresh st content lp1 lv1 now1).isEmpty = false := by
    unfold analyze_fresh
    exact setKey_ne_nil _ _ _
  have hck2 : check_cache st
      (setKey store ("analysis_" ++ domain) (analyze_fresh st content lp1 lv1 now1))
      now2 ("analysis_" ++ domain) = some (analyze_fresh st content lp1 lv1 now1) := by
    unfold check_cache
    rw [getKey_setKey_self]
    dsimp only
    rw [hts]
    have hle : ¬ (now2 - now1 > st.cache_expiry) := by omega
    simp [hle]
  rw [hr1]
  refine ⟨hts, ?_⟩
  unfold analyze_company
  rw [hc]
  dsimp only
  rw [hck2]
  simp [hne]

/-- Witness for claim C6 at a concrete domain and one-hour gap. -/
theorem C6_cache_idempotent_witness :
    ((Analyzer.init false "gpt-4.1-nano" true 86400).use_cache = true) ∧
    (getKey ([] : List (String × PyDict)) ("analysis_" ++ "example.com") = none) ∧
    ((3600 : Int) - 0 ≤ (Analyzer.init false "gpt-4.1-nano" true 86400).cache_expiry) ∧
    Analyzer.analyze_company (Analyzer.init false "gpt-4.1-nano" true 86400)
        (Analyzer.analyze_company (Analyzer.init false "gpt-4.1-nano" true 86400)
          [] 0 "example.com" "content" none c2leaves).2.1
        3600 "example.com" "content" none c2leaves =
      ((Analyzer.analyze_company (Analyzer.init false "gpt-4.1-nano" true 86400)
          [] 0 "example.com" "content" none c2leaves).1,
       (Analyzer.analyze_company (Analyzer.init false "gpt-4.1-nano" true 86400)
          [] 0 "example.com" "content" none c2leaves).2.1, 0) :=
  ⟨rfl, rfl, by decide,
   (C6_cache_idempotent (Analyzer.init false "gpt-4.1-nano" true 86400) [] 0 3600
     "example.com" "content" none none c2leaves c2leaves rfl rfl (by decide)).2⟩

open LeadFinder in
theorem role_based_suggestions_length (role : String) :
    (role_based_suggestions role).length = 3 := by
  unfold role_based_suggestions
  repeat' split
  all_goals rfl

open LeadFinder in
theorem generate_outreach_suggestions_length (role : String) (ca : PyDict) :
    (generate_outreach_suggestions role ca).length = 3 ∨
    (generate_outreach_suggestions role ca).length = 4 := by
  unfold generate_outreach_suggestions
  dsimp only
  split
  · right
    simp [role_based_suggestions_length]
  · left
    exact role_based_suggestions_length role

theorem all_map_jstr (l : List String) :
    (l.map JVal.jstr).all (fun v =>
      match v with
      | JVal.jstr _ => true
      | _ => false) = true := by
  induction l with
  | nil => rfl
  | cons h t ih => simp only [List.map_cons, List.all_cons, Bool.true_and]; exact ih

open LeadFinder in
theorem mk_external_lead_props (g : PyRandom) (k : Nat) (ca m : PyDict) :
    isExternalLead (mk_external_lead g k ca m).1 = true ∧
    outreach_ok (mk_external_lead g k ca m).1 = true := by
  constructor
  · rfl
  · have hout : getKey (mk_external_lead g k ca m).1 "outreach_suggestions" =
        some (.jarr ((generate_outreach_suggestions
          ((get_target_roles_for_match m).headD "Director of Operations") ca).map .jstr)) := rfl
    unfold outreach_ok
    rw [hout]
    dsimp only
    rw [all_map_jstr]
    simp only [Bool.true_and, List.length_map, Bool.or_eq_true, beq_iff_eq]
    exact generate_outreach_suggestions_length _ ca

open LeadFinder in
theorem build_leads_all (g : PyRandom) (ca : PyDict) :
    ∀ (ms : List PyDict) (k : Nat),
      ((build_leads g ca k ms).1.all (fun l => isExternalLead l && outreach_ok l)) = true := by
  intro ms
  induction ms with
  | nil => intro k; rfl
  | cons m t ih =>
    intro k
    have hm := mk_external_lead_props g k ca m
    simp only [build_leads, List.all_cons, Bool.and_eq_true]
    exact ⟨⟨hm.1, hm.2⟩, by simp [ih _]⟩

open LeadFinder in
theorem lg_check_cache_miss (gen : LeadGenerator) (store : List (String × PyDict))
    (now : Int) (key : String) (h : getKey store key = none) :
    lg_check_cache gen store now key = none := by
  unfold lg_check_cache
  rw [h]

theorem all_split {α : Type} {p q : α → Bool} (l : List α)
    (h : l.all (fun x => p x && q x) = true) : l.all p = true ∧ l.all q = true := by
  simp only [List.all_eq_true, Bool.and_eq_true] at *
  exact ⟨fun x hx => (h x hx).1, fun x hx => (h x hx).2⟩

open LeadFinder in
theorem ext_not_int (x : PyDict) (h : isExternalLead x = true) :
    isInternalLead x = false := by
  unfold isExternalLead at h
  unfold isInternalLead
  revert h
  cases hk : getKey x "lead_type" with
  | none => intro h; cases h
  | some v =>
    cases v with
    | jstr s =>
      intro h
      simp only [beq_iff_eq] at h
      subst h
      decide
    | jnull => intro h; cases h
    | jbool b => intro h; cases h
    | jnum n => intro h; cases h
    | jarr xs => intro h; cases h
    | jobj fs => intro h; cases h

open LeadFinder in
theorem generate_leads_fresh_props (gen : LeadGenerator) (store : List (String × PyDict))
    (now : Int) (g : PyRandom) (k : Nat) (ca : PyDict) (domain : String)
    (lp : Option JVal) (hmiss : getKey store ("leads_" ++ domain) = none) :
    (generate_leads gen store now g k ca domain lp).1.all
      (fun l => isExternalLead l && outreach_ok l) = true := by
  have hfresh : (generate_leads gen store now g k ca domain lp).1 =
      (lg_fresh gen store now g k ca domain lp).1 := by
    unfold generate_leads
    cases hc : gen.use_cache with
    | false => simp
    | true => simp [lg_check_cache_miss gen store now _ hmiss]
  rw [hfresh]
  have hgen : (lg_fresh gen store now g k ca domain lp).1 =
      (generate_external_leads g k ca domain lp).1 := by
    unfold lg_fresh
    dsimp only
  rw [hgen]
  unfold generate_external_leads
  dsimp only
  exact build_leads_all g ca _ _

/-- Claim C1 (amended): with a cold cache the matcher entry point produces
only external leads: the sublist with lead_type internal is empty and every
lead carries lead_type external; the source has no internal-lead generation
and no confidence_score. -/
theorem C1_amended_only_external (gen : LeadFinder.LeadGenerator)
    (store : List (String × PyDict)) (now : Int) (g : LeadFinder.PyRandom) (k : Nat)
    (ca : PyDict) (domain : String) (lp : Option JVal)
    (hmiss : getKey store ("leads_" ++ domain) = none) :
    (LeadFinder.generate_leads gen store now g k ca domain lp).1.filter
      LeadFinder.isInternalLead = [] ∧
    (LeadFinder.generate_leads gen store now g k ca domain lp).1.all
      LeadFinder.isExternalLead = true := by
  have h := all_split _ (generate_leads_fresh_props gen store now g k ca domain lp hmiss)
  refine ⟨?_, h.1⟩
  rw [List.filter_eq_nil_iff]
  intro a ha
  have hx := (List.all_eq_true.mp h.1) a ha
  simp [ext_not_int a hx]

/-- Counterexample for claim C1: on the scenario profile of the claim the
entry point returns zero internal leads, not two. -/
theorem C1_counterexample_no_internal_leads :
    (c1run.filter LeadFinder.isInternalLead).length = 0 ∧
    ¬ (c1run.filter LeadFinder.isInternalLead).length = 2 := by
  have h : (c1run.filter LeadFinder.isInternalLead).length = 0 := rfl
  exact ⟨h, by omega⟩

/-- Witness for the amended claim C1 on the scenario run. -/
theorem C1_amended_only_external_witness :
    c1run.filter LeadFinder.isInternalLead = [] ∧
    c1run.all LeadFinder.isExternalLead = true :=
  C1_amended_only_external (LeadFinder.lg_init true) [] 0 detRandom 0 c1profile
    "example.com" none rfl

/-- Claim C3 (amended): with a cold cache every lead produced by the matcher
entry point has outreach_suggestions equal to a list of strings of length 3
or 4: three role-keyed lines, plus one offering line when offerings are
known; the source never caps the list at 3. -/
theorem C3_amended_outreach_bound (gen : LeadFinder.LeadGenerator)
    (store : List (String × PyDict)) (now : Int) (g : LeadFinder.PyRandom) (k : Nat)
    (ca : PyDict) (domain : String) (lp : Option JVal)
    (hmiss : getKey store ("leads_" ++ domain) = none) :
    (LeadFinder.generate_leads gen store now g k ca domain lp).1.all
      LeadFinder.outreach_ok = true :=
  (all_split _ (generate_leads_fresh_props gen store now g k ca domain lp hmiss)).2

/-- Counterexample for claim C3: every lead of the scenario run carries four
outreach suggestions, violating the claimed cap of three. -/
theorem C3_counterexample_four_suggestions :
    c1run.map LeadFinder.outreachLen = [4, 4, 4, 4] ∧
    c1run.all (fun l => decide (LeadFinder.outreachLen l ≤ 3)) = false :=
  ⟨rfl, rfl⟩

/-- Witness for the amended claim C3 on the scenario run. -/
theorem C3_amended_outreach_bound_witness :
    c1run.all LeadFinder.outreach_ok = true :=
  C3_amended_outreach_bound (LeadFinder.lg_init true) [] 0 detRandom 0 c1profile
    "example.com" none rfl

open LeadFinder in
theorem calculate_match_score_bounds (g : PyRandom) (k : Nat) (m : CompanyRec)
    (offering : String) (tm : JVal) (companySize : String) :
    0 ≤ (calculate_match_score g k m offering tm companySize).1 ∧
    (calculate_match_score g k m offering tm companySize).1 ≤ 100 := by
  unfold calculate_match_score
  dsimp only
  constructor
  · exact le_max_left _ _
  · exact max_le (by norm_num) (min_le_left _ _)

open LeadFinder in
theorem fallback_match_score (g : PyRandom) (k : Nat) (industry : String)
    (offerings : JVal) (companySize : String) (companies : List String) (i : Nat) :
    getKey (fallback_match g k industry offerings companySize companies i).1
      "match_score" = some (.jnum (g.randint k 70 90)) := rfl

open LeadFinder in
theorem fallback_go_scores (g : PyRandom) (industry : String) (offerings : JVal)
    (companySize : String) (companies : List String)
    (hr : ∀ i, 70 ≤ g.randint i 70 90 ∧ g.randint i 70 90 ≤ 90) :
    ∀ (idxs : List Nat) (k : Nat),
      ((fallback_go g industry offerings companySize companies k idxs).1.all
        score_in_range) = true := by
  intro idxs
  induction idxs with
  | nil => intro k; rfl
  | cons i t ih =>
    intro k
    simp only [fallback_go, List.all_cons, Bool.and_eq_true]
    constructor
    · unfold score_in_range
      rw [fallback_match_score]
      have hrk := hr k
      simp only [Bool.and_eq_true, decide_eq_true_eq]
      omega
    · exact ih _

open LeadFinder in
theorem generate_fallback_matches_scores (g : PyRandom) (k : Nat) (industry : String)
    (offerings : JVal) (companySize : String)
    (hr : ∀ i, 70 ≤ g.randint i 70 90 ∧ g.randint i 70 90 ≤ 90) :
    ((generate_fallback_matches g k industry offerings companySize).1.all
      score_in_range) = true := by
  unfold generate_fallback_matches
  exact fallback_go_scores g industry offerings companySize _ hr _ _

open LeadFinder in
theorem ensure_match_score_synth (g : PyRandom) (k : Nat) (m : PyDict)
    (hr : 70 ≤ g.randint k 70 90 ∧ g.randint k 70 90 ≤ 90)
    (hu : score_unusable m = true) :
    score_in_range (ensure_match_score g k m).1 = true := by
  unfold score_unusable at hu
  unfold ensure_match_score score_in_range
  revert hu
  cases hk : getKey m "match_score" with
  | none =>
    intro _
    dsimp only
    rw [getKey_setKey_self]
    simp only [Bool.and_eq_true, decide_eq_true_eq]
    omega
  | some v =>
    cases v with
    | jnum n => intro h; cases h
    | jbool b => intro h; cases h
    | jstr s =>
      intro hu
      simp only [Option.isNone_iff_eq_none] at hu
      dsimp only
      rw [hu]
      dsimp only
      rw [getKey_setKey_self]
      simp only [Bool.and_eq_true, decide_eq_true_eq]
      omega
    | jnull =>
      intro _
      dsimp only
      rw [getKey_setKey_self]
      simp only [Bool.and_eq_true, decide_eq_true_eq]
      omega
    | jarr xs =>
      intro _
      dsimp only
      rw [getKey_setKey_self]
      simp only [Bool.and_eq_true, decide_eq_true_eq]
      omega
    | jobj fs =>
      intro _
      dsimp only
      rw [getKey_setKey_self]
      simp only [Bool.and_eq_true, decide_eq_true_eq]
      omega

open LeadFinder in
theorem per_company_go_scores (g : PyRandom) (offering : String) (tm : JVal)
    (companySize cat : String) :
    ∀ (ms : List CompanyRec) (k : Nat),
      ((per_company_go g offering tm companySize cat k ms).1.all score_in_range) = true := by
  intro ms
  induction ms with
  | nil => intro k; rfl
  | cons m t ih =>
    intro k
    simp only [per_company_go, List.all_cons, Bool.and_eq_true]
    constructor
    · unfold score_in_range
      have hsc : getKey (match_from_company m
          (calculate_match_score g k m offering tm companySize).1
          (generate_specific_match_reason g
            (calculate_match_score g k m offering tm companySize).2 m offering cat).1 cat)
          "match_score" =
          some (.jnum (calculate_match_score g k m offering tm companySize).1) := rfl
      rw [hsc]
      have hb := calculate_match_score_bounds g k m offering tm companySize
      simp only [Bool.and_eq_true, decide_eq_true_eq]
      omega
    · exact ih _

open LeadFinder in
theorem per_category_go_scores (g : PyRandom) (offering : String) (tm : JVal)
    (companySize srcIndustry : String) :
    ∀ (cats : List String) (k : Nat),
      ((per_category_go g offering tm companySize srcIndustry k cats).1.all
        score_in_range) = true := by
  intro cats
  induction cats with
  | nil => intro k; rfl
  | cons c t ih =>
    intro k
    simp only [per_category_go, List.all_append, Bool.and_eq_true]
    exact ⟨per_company_go_scores g offering tm companySize c _ _, ih _⟩

open LeadFinder in
theorem per_offering_go_scores (g : PyRandom) (tm : JVal)
    (companySize srcIndustry : String) :
    ∀ (offs : List String) (k : Nat),
      ((per_offering_go g tm companySize srcIndustry k offs).1.all
        score_in_range) = true := by
  intro offs
  induction offs with
  | nil => intro k; rfl
  | cons o t ih =>
    intro k
    simp only [per_offering_go, List.all_append, Bool.and_eq_true]
    exact ⟨per_category_go_scores g o tm companySize srcIndustry _ _, ih _⟩

open LeadFinder in
theorem dedup_by_domain_mem :
    ∀ (l : List PyDict) (seen : List String) (x : PyDict),
      x ∈ dedup_by_domain seen l → x ∈ l := by
  intro l
  induction l with
  | nil => intro seen x h; cases h
  | cons m t ih =>
    intro seen x h
    unfold dedup_by_domain at h
    dsimp only at h
    split at h
    · exact List.mem_cons_of_mem _ (ih _ _ h)
    · rcases List.mem_cons.mp h with h1 | h1
      · exact h1 ▸ List.mem_cons_self _ _
      · exact List.mem_cons_of_mem _ (ih _ _ h1)

open LeadFinder in
theorem generic_go_scores (g : PyRandom) (industry : String) (offs : List String) :
    ∀ (idxs : List Nat) (k : Nat),
      ((generic_go g industry offs k idxs).1.all score_in_range) = true := by
  intro idxs
  induction idxs with
  | nil => intro k; rfl
  | cons i t ih =>
    intro k
    unfold generic_go
    cases h1 : getKey industry_companies industry with
    | none =>
      cases h2 : getKey industry_domains industry <;> exact ih k
    | some ns =>
      cases h2 : getKey industry_domains industry with
      | none => exact ih k
      | some ds =>
        dsimp only
        by_cases hi : i < ns.length
        · simp only [hi, if_true, List.all_cons, Bool.and_eq_true]
          exact ⟨rfl, ih _⟩
        · simp only [hi, if_false]
          exact ih k

open LeadFinder in
theorem determine_core_scores (g : PyRandom) (k : Nat) (industry companySize : String)
    (tm : JVal) (offs : List String) :
    ((let pmk := per_offering_go g tm companySize industry k offs
      let unique := dedup_by_domain [] pmk.1
      if unique.isEmpty then generic_go g industry offs pmk.2 (List.range 3)
      else (unique, pmk.2)).1.all score_in_range) = true := by
  dsimp only
  split
  · exact generic_go_scores g industry offs _ _
  · rw [List.all_eq_true]
    intro x hx
    have hx2 := dedup_by_domain_mem _ _ _ hx
    exact (List.all_eq_true.mp (per_offering_go_scores g tm companySize industry offs k)) x hx2

open LeadFinder in
theorem determine_potential_matches_scores (g : PyRandom) (k : Nat)
    (industry : String) (offerings0 targetMarket0 : JVal) (companySize : String) :
    ((determine_potential_matches g k industry offerings0 targetMarket0 companySize).1.all
      score_in_range) = true :=
  determine_core_scores g k industry companySize _ _

/-- Counterexample for claim C4: a string score of 150 percent in the LLM
response is coerced to the integer 150 and passed through without clamping,
so a produced candidate has a match score above 100. -/
theorem C4_counterexample_coerced_score :
    getKey (c4run.headD []) "match_score" = some (.jnum 150) ∧
    c4run.all LeadFinder.score_in_range = false :=
  ⟨rfl, rfl⟩

open LeadFinder in
/-- Claim C4 (amended): every score of the deterministic scoring path is an
integer in 0 to 100, every score of the rule-based fallback path is in that
range whenever randint honours its bounds, and a score synthesized by the
LLM-path validation (when the model score is absent or unusable) is in that
range; scores taken or coerced from the model output are passed through
without clamping (see the counterexample). -/
theorem C4_amended_score_bounds (g : PyRandom) (k : Nat) (mc : CompanyRec)
    (offering : String) (tm : JVal) (industry : String)
    (offerings0 targetMarket0 : JVal) (companySize : String) (m : PyDict)
    (hr : ∀ i, 70 ≤ g.randint i 70 90 ∧ g.randint i 70 90 ≤ 90)
    (hu : score_unusable m = true) :
    (0 ≤ (calculate_match_score g k mc offering tm companySize).1 ∧
     (calculate_match_score g k mc offering tm companySize).1 ≤ 100) ∧
    ((generate_fallback_matches g k industry offerings0 companySize).1.all
      score_in_range = true) ∧
    (score_in_range (ensure_match_score g k m).1 = true) ∧
    ((determine_potential_matches g k industry offerings0 targetMarket0 companySize).1.all
      score_in_range = true) :=
  ⟨calculate_match_score_bounds g k mc offering tm companySize,
   generate_fallback_matches_scores g k industry offerings0 companySize hr,
   ensure_match_score_synth g k m (hr k) hu,
   determine_potential_matches_scores g k industry offerings0 targetMarket0 companySize⟩

open LeadFinder in
/-- Witness for the amended claim C4 at the deterministic oracle. -/
theorem C4_amended_score_bounds_witness :
    ((generate_fallback_matches detRandom 0 "Technology"
       (.jarr [.jstr "Cloud solutions"]) "Medium").1.all score_in_range = true) ∧
    (score_in_range (ensure_match_score detRandom 0 []).1 = true) ∧
    ((determine_potential_matches detRandom 0 "Technology"
       (.jarr [.jstr "Cloud solutions"]) (.jarr []) "Medium").1.all
      score_in_range = true) :=
  ⟨(C4_amended_score_bounds detRandom 0 ⟨"TechCorp", "techcorp.com", "Technology", "Medium"⟩
      "Cloud solutions" (.jarr []) "Technology" (.jarr [.jstr "Cloud solutions"]) (.jarr [])
      "Medium" [] (fun _ => ⟨le_refl 70, show (70 : Int) ≤ 90 by decide⟩) rfl).2.1,
   (C4_amended_score_bounds detRandom 0 ⟨"TechCorp", "techcorp.com", "Technology", "Medium"⟩
      "Cloud solutions" (.jarr []) "Technology" (.jarr [.jstr "Cloud solutions"]) (.jarr [])
      "Medium" [] (fun _ => ⟨le_refl 70, show (70 : Int) ≤ 90 by decide⟩) rfl).2.2.1,
   (C4_amended_score_bounds detRandom 0 ⟨"TechCorp", "techcorp.com", "Technology", "Medium"⟩
      "Cloud solutions" (.jarr []) "Technology" (.jarr [.jstr "Cloud solutions"]) (.jarr [])
      "Medium" [] (fun _ => ⟨le_refl 70, show (70 : Int) ≤ 90 by decide⟩) rfl).2.2.2⟩
